import Mathlib

/-!
Verification of the JSON2SQL engine (`src/json2sql/engine.py`).

The development shallowly embeds the `JSON2SQLGenerator` class: Python
dicts/lists/JSON values become the inductive type `JVal`, the object's
state becomes the structure `Gen`, each method becomes a Lean function of
the same name (camel-cased), raised exceptions become `Except.error`, and
the unbounded recursions of the source (condition trees, join-path
traversal, subquery recursion) take an explicit fuel argument.  External
library routines used by the engine (`MySQLdb.escape_string`,
`datetime.strptime`, Python's `str.format`, `int(...)`, `re.findall` on
the template pattern) are modelled by executable Lean functions following
their documented semantics.
-/

namespace J2S

/-- A Python/JSON value as the engine manipulates it: the payloads of the
request dicts, field mappings and templates.  Python dict keys that the
engine uses are strings (the data arrives from JSON), so objects map
`String` keys to values. -/
inductive JVal where
  | null
  | bool (b : Bool)
  | int (n : Int)
  | str (s : String)
  | arr (xs : List JVal)
  | obj (kvs : List (String × JVal))

/-- Python truthiness (`if value:`) for `JVal`. -/
def JVal.truthy : JVal → Bool
  | .null => false
  | .bool b => b
  | .int n => n != 0
  | .str s => !s.toList.isEmpty
  | .arr xs => !xs.isEmpty
  | .obj kvs => !kvs.isEmpty

/-- Lookup in an association list modelling a Python dict (keys are unique
because insertion goes through `dictSet`). -/
def jlookup (kvs : List (String × JVal)) (k : String) : Option JVal :=
  match kvs with
  | [] => none
  | (k', v) :: rest => if k' = k then some v else jlookup rest k

/-- Python's `d.get(key, default)` on a dict value; non-dicts have no keys. -/
def JVal.getD (v : JVal) (k : String) (d : JVal) : JVal :=
  match v with
  | .obj kvs => (jlookup kvs k).getD d
  | _ => d

/-- Python's `d.get(key)` (default `None`). -/
def JVal.getN (v : JVal) (k : String) : JVal := v.getD k .null

/-- Python's `d[key] = value`: replaces the value at an existing key in
place (keeping its position, as a Python dict does) or appends a new key. -/
def dictSet (kvs : List (String × JVal)) (k : String) (v : JVal) :
    List (String × JVal) :=
  match kvs with
  | [] => [(k, v)]
  | (k', v') :: rest =>
      if k' = k then (k', v) :: rest else (k', v') :: dictSet rest k v

/-- ASCII upper-casing, modelling Python's `str.upper` on the ASCII data the
engine handles. -/
def pyUpper (s : String) : String := String.mk (s.toList.map Char.toUpper)

/-- ASCII lower-casing, modelling Python's `str.lower`. -/
def pyLower (s : String) : String := String.mk (s.toList.map Char.toLower)

/-- A character Python's `str.strip()` removes. -/
def isPySpace (c : Char) : Bool :=
  c = ' ' || c = '\t' || c = '\n' || c = '\r' || c.toNat = 11 || c.toNat = 12

/-- Python's `str.strip()` with no argument: remove surrounding
whitespace. -/
def pyStrip (s : String) : String :=
  let cs := (s.toList.dropWhile isPySpace).reverse
  String.mk (cs.dropWhile isPySpace).reverse

/-- Does the second list stand at the head of the first? -/
def startsWithChars : List Char → List Char → Bool
  | _, [] => true
  | [], _ :: _ => false
  | c :: cs, d :: ds => c = d && startsWithChars cs ds

/-- Substring scan over the haystack's characters. -/
def containsSubAux (needle : List Char) : List Char → Bool
  | [] => needle.isEmpty
  | c :: rest => startsWithChars (c :: rest) needle || containsSubAux needle rest

/-- Python's `sub in s` on strings. -/
def containsSub (s sub : String) : Bool := containsSubAux sub.toList s.toList

/-- Split a character list on a separator character (the list-level model
of Python's `str.split` used by the `strptime` format checks). -/
def splitOnChar (sep : Char) : List Char → List (List Char)
  | [] => [[]]
  | c :: rest =>
      let r := splitOnChar sep rest
      if c = sep then [] :: r
      else
        match r with
        | h :: t => (c :: h) :: t
        | [] => [[c]]

/-- Code-point lexicographic `a ≤ b` on character lists (Python's string
order). -/
def strLeChars : List Char → List Char → Bool
  | [], _ => true
  | _ :: _, [] => false
  | c :: cs, d :: ds => if c = d then strLeChars cs ds else decide (c < d)

/-- Python's `a <= b` on strings. -/
def strLe (a b : String) : Bool := strLeChars a.toList b.toList

/-- Python's `key in container` for the string keys the engine tests:
membership in a dict's keys, in a list's elements, or substring search in
a string; on other values Python raises `TypeError`. -/
def pyIn (k : String) (v : JVal) : Except String Bool :=
  match v with
  | .obj kvs => .ok (kvs.any (fun kv => kv.1 = k))
  | .arr xs => .ok (xs.any (fun x => match x with | .str s => s = k | _ => false))
  | .str s => .ok (containsSub s k)
  | _ => .error "TypeError: argument is not iterable"

/-- Digits of a numeral to a natural number. -/
def digitsToNat (cs : List Char) : Nat :=
  cs.foldl (fun a c => a * 10 + (c.toNat - 48)) 0

/-- Python's `int(string)`: optional surrounding whitespace, an optional
sign, then decimal digits; anything else raises `ValueError` (`none`). -/
def pyIntOfString (s : String) : Option Int :=
  match (pyStrip s).toList with
  | [] => none
  | c :: rest =>
      if c = '-' then
        if !rest.isEmpty && rest.all Char.isDigit then
          some (-(digitsToNat rest : Int))
        else none
      else if c = '+' then
        if !rest.isEmpty && rest.all Char.isDigit then
          some ((digitsToNat rest : Int))
        else none
      else if (c :: rest).all Char.isDigit then
        some ((digitsToNat (c :: rest) : Int))
      else none

/-- Python's `int(value)` on an arbitrary value: strings parse, ints and
bools coerce, anything else raises `TypeError`; a string that does not
parse raises `ValueError`.  The two exception kinds are distinguished
because `_convert_values` catches only `ValueError`. -/
inductive PyIntResult where
  | ok (n : Int)
  | valueError
  | typeError
deriving DecidableEq

/-- Dispatch of Python's `int(...)` over a `JVal`. -/
def pyIntCoerce : JVal → PyIntResult
  | .str s => match pyIntOfString s with
      | some n => .ok n
      | none => .valueError
  | .int n => .ok n
  | .bool b => .ok (if b then 1 else 0)
  | _ => .typeError

/-- Python `repr` of a value, approximated for containers (fuel-bounded;
the engine only reaches container rendering on malformed error-path
inputs). -/
def pyRepr : Nat → JVal → String
  | _, .null => "None"
  | _, .bool true => "True"
  | _, .bool false => "False"
  | _, .int n => toString n
  | _, .str s => "'" ++ s ++ "'"
  | 0, _ => ""
  | n+1, .arr xs => "[" ++ String.intercalate ", " (xs.map (pyRepr n)) ++ "]"
  | n+1, .obj kvs =>
      "\x7b" ++
        String.intercalate ", "
          (kvs.map (fun kv => "'" ++ kv.1 ++ "': " ++ pyRepr n kv.2)) ++
      "\x7d"

/-- Python's `str(value)` as `str.format` applies it when interpolating. -/
def pyStr : JVal → String
  | .str s => s
  | .null => "None"
  | .bool true => "True"
  | .bool false => "False"
  | .int n => toString n
  | v => pyRepr 64 v

/-- The apostrophe character (`'`). -/
def squoteChar : Char := Char.ofNat 39

/-- The opening brace character. -/
def lbraceChar : Char := Char.ofNat 123

/-- The closing brace character. -/
def rbraceChar : Char := Char.ofNat 125

/-- One character of `MySQLdb.escape_string`: backslash-escape quote
characters, backslash, NUL, newline, carriage return and ^Z. -/
def escapeChar (c : Char) : String :=
  if c = Char.ofNat 0 then "\\0"
  else if c = '\n' then "\\n"
  else if c = '\r' then "\\r"
  else if c = '\\' then "\\\\"
  else if c = squoteChar then "\\" ++ String.singleton squoteChar
  else if c = '"' then "\\\""
  else if c = Char.ofNat 26 then "\\Z"
  else String.singleton c

/-- `_sql_injection_proof`: the engine's escape routine, whose contract is
`MySQLdb.escape_string` (the canonical MySQL client escape). -/
def sqlInjectionProof (s : String) : String :=
  String.join (s.toList.map escapeChar)

/-- Character class `\w` of Python's `re` on ASCII data. -/
def wordChar (c : Char) : Bool := c.isAlphanum || c = '_'

/-- Scanner behind `re.findall(r"..."` with the engine's
`TEMPLATE_KEY_REGEX` `\x7b(\w+)\x7d`: every non-overlapping occurrence of
an open brace, one-or-more word characters, close brace, in order.  Fuel
is the character count, which the scan never exceeds. -/
def templateVarsAux (env : Unit) : Nat → List Char → List String
  | 0, _ => []
  | _+1, [] => []
  | f+1, c :: rest =>
      if c = lbraceChar then
        let name := rest.takeWhile wordChar
        let after := rest.dropWhile wordChar
        match after, name with
        | c2 :: rest2, _ :: _ =>
            if c2 = rbraceChar then
              String.mk name :: templateVarsAux env f rest2
            else templateVarsAux env f rest
        | _, _ => templateVarsAux env f rest
      else templateVarsAux env f rest

/-- All `\x7bname\x7d` placeholders of a template, in occurrence order. -/
def templateVars (s : String) : List String :=
  templateVarsAux () (s.toList.length + 1) s.toList

/-- A value produced by `_process_parameter`: the Python object stored in
`validated_parameters` before interpolation (an `int`, a `str`, or `None`
when `_process_parameter` falls through its `if value:` guard). -/
inductive PValue where
  | pnone
  | pint (n : Int)
  | pstr (s : String)
deriving DecidableEq

/-- `str(...)` of a parameter value, as `str.format` renders it. -/
def PValue.render : PValue → String
  | .pnone => "None"
  | .pint n => toString n
  | .pstr s => s

/-- Lookup in the validated-parameters dict. -/
def plookup (env : List (String × PValue)) (k : String) : Option PValue :=
  match env with
  | [] => none
  | (k', v) :: rest => if k' = k then some v else plookup rest k

/-- `d[key] = value` on the validated-parameters dict. -/
def pdictSet (env : List (String × PValue)) (k : String) (v : PValue) :
    List (String × PValue) :=
  match env with
  | [] => [(k, v)]
  | (k', v') :: rest =>
      if k' = k then (k', v) :: rest else (k', v') :: pdictSet rest k v

/-- Scanner of Python's `str.format(**env)` (fuel-bounded by length): plain
characters pass through, a doubled brace is a literal brace, `\x7bname\x7d`
interpolates `str(env[name])`, a missing name raises `KeyError`, an
unpaired brace raises `ValueError`. -/
def pyFormatAux (env : List (String × PValue)) :
    Nat → List Char → Except String String
  | 0, _ => .error "format: out of fuel"
  | _+1, [] => .ok ""
  | f+1, c :: rest =>
      if c = lbraceChar then
        match rest with
        | [] => .error "ValueError: Single brace encountered in format string"
        | c2 :: rest2 =>
            if c2 = lbraceChar then do
              let t ← pyFormatAux env f rest2
              .ok ("\x7b" ++ t)
            else
              let name := (c2 :: rest2).takeWhile
                (fun ch => ch ≠ rbraceChar && ch ≠ lbraceChar)
              match (c2 :: rest2).dropWhile
                  (fun ch => ch ≠ rbraceChar && ch ≠ lbraceChar) with
              | close :: after =>
                  if close = rbraceChar then
                    match plookup env (String.mk name) with
                    | some v => do
                        let t ← pyFormatAux env f after
                        .ok (v.render ++ t)
                    | none => .error ("KeyError: " ++ String.mk name)
                  else .error "ValueError: unexpected brace in field name"
              | [] => .error "ValueError: expected closing brace"
      else if c = rbraceChar then
        match rest with
        | c2 :: rest2 =>
            if c2 = rbraceChar then do
              let t ← pyFormatAux env f rest2
              .ok ("\x7d" ++ t)
            else .error "ValueError: Single brace encountered in format string"
        | [] => .error "ValueError: Single brace encountered in format string"
      else do
        let t ← pyFormatAux env f rest
        .ok (String.singleton c ++ t)

/-- Python's `template.format(**env)` for the engine's plain
`\x7bname\x7d` templates. -/
def pyFormat (tpl : String) (env : List (String × PValue)) :
    Except String String :=
  pyFormatAux env (tpl.toList.length + 1) tpl.toList

/-- Number of days of a month in the proleptic Gregorian calendar (used by
the `strptime` model). -/
def daysInMonth (y m : Nat) : Nat :=
  if m = 2 then
    if (y % 4 = 0 && y % 100 != 0) || y % 400 = 0 then 29 else 28
  else if m = 4 || m = 6 || m = 9 || m = 11 then 30 else 31

/-- All characters are digits and the list is non-empty. -/
def allDigits (cs : List Char) : Bool := !cs.isEmpty && cs.all Char.isDigit

/-- Model of `datetime.datetime.strptime(value, "%Y-%m-%d")` succeeding:
three dash-separated numeric fields forming a valid calendar date (`%Y`
matches exactly four digits). -/
def strptimeDateOk (s : String) : Bool :=
  match splitOnChar '-' s.toList with
  | [ys, ms, ds] =>
      allDigits ys && allDigits ms && allDigits ds &&
      ys.length = 4 && ms.length ≤ 2 && ds.length ≤ 2 &&
      (let y := digitsToNat ys
       let m := digitsToNat ms
       let d := digitsToNat ds
       decide (1 ≤ y) && decide (1 ≤ m) && decide (m ≤ 12) &&
       decide (1 ≤ d) && decide (d ≤ daysInMonth y m))
  | _ => false

/-- Model of `datetime.datetime.strptime(value, "%Y-%m-%dT%H:%M:%S")`
succeeding (the `datetime` constructor bounds seconds by 59, so the 60-61
leap seconds the scanner itself tolerates still raise `ValueError`). -/
def strptimeDateTimeOk (s : String) : Bool :=
  match splitOnChar 'T' s.toList with
  | [date, time] =>
      strptimeDateOk (String.mk date) &&
      (match splitOnChar ':' time with
       | [hs, ms, ss] =>
           allDigits hs && allDigits ms && allDigits ss &&
           hs.length ≤ 2 && ms.length ≤ 2 && ss.length ≤ 2 &&
           decide (digitsToNat hs ≤ 23) &&
           decide (digitsToNat ms ≤ 59) &&
           decide (digitsToNat ss ≤ 59)
       | _ => false)
  | _ => false

/-- Python's `value.strip("'")`: remove leading and trailing apostrophes. -/
def stripQuotes (s : String) : String :=
  let cs := (s.toList.dropWhile (fun c => c = squoteChar)).reverse
  String.mk (cs.dropWhile (fun c => c = squoteChar)).reverse

/-- Python's `==` between the values the engine compares: dict keys are
hashable scalars and every comparison in the engine has a scalar on one
side, so container-against-container equality (never reached) is modelled
as `false`.  `True == 1` and `False == 0` hold in Python and are kept. -/
def pyEqScalar : JVal → JVal → Bool
  | .null, .null => true
  | .bool a, .bool b => a == b
  | .int a, .int b => a == b
  | .str a, .str b => a == b
  | .bool a, .int b => (if a then (1 : Int) else 0) == b
  | .int a, .bool b => a == (if b then (1 : Int) else 0)
  | _, _ => false

/-- Python's `for x in value` for the engine's loops: lists iterate their
elements, dicts their keys, strings their characters; other values raise
`TypeError`. -/
def pyIterate : JVal → Except String (List JVal)
  | .arr xs => .ok xs
  | .obj kvs => .ok (kvs.map (fun kv => .str kv.1))
  | .str s => .ok (s.toList.map (fun c => .str (String.singleton c)))
  | _ => .error "TypeError: object is not iterable"

/-- Lookup in a dict keyed by Python scalars (field identifiers, template
ids, aliases). -/
def klookup {α : Type} (kvs : List (JVal × α)) (k : JVal) : Option α :=
  match kvs with
  | [] => none
  | (k', v) :: rest => if pyEqScalar k' k then some v else klookup rest k

/-- `d[key] = value` on a scalar-keyed dict: replace in place or append. -/
def kdictSet {α : Type} (kvs : List (JVal × α)) (k : JVal) (v : α) :
    List (JVal × α) :=
  match kvs with
  | [] => [(k, v)]
  | (k', v') :: rest =>
      if pyEqScalar k' k then (k', v) :: rest else (k', v') :: kdictSet rest k v

/-- `d[key] = value` on a string-keyed dict. -/
def sdictSet {α : Type} (kvs : List (String × α)) (k : String) (v : α) :
    List (String × α) :=
  match kvs with
  | [] => [(k, v)]
  | (k', v') :: rest =>
      if k' = k then (k', v) :: rest else (k', v') :: sdictSet rest k v

/-! Constants of the `JSON2SQLGenerator` class. -/

/-- JSON key of a leaf condition. -/
def WHERE_CONDITION : String := "where"

/-- JSON key of a conjunction node. -/
def AND_CONDITION : String := "and"

/-- JSON key of a disjunction node. -/
def OR_CONDITION : String := "or"

/-- JSON key of a negation node. -/
def NOT_CONDITION : String := "not"

/-- JSON key of the (unimplemented) exists node. -/
def EXISTS_CONDITION : String := "exists"

/-- JSON key of a custom-method node. -/
def CUSTOM_METHOD_CONDITION : String := "custom_method"

/-- JSON key of a questionnaire node (handled as a custom method). -/
def QUESTIONNAIRE_CONDITION : String := "questionnaire"

/-- The `integer` data type. -/
def INTEGER : String := "integer"

/-- The `string` data type. -/
def STRING : String := "string"

/-- The `date` data type. -/
def DATE : String := "date"

/-- The `datetime` data type. -/
def DATE_TIME : String := "datetime"

/-- The `boolean` data type. -/
def BOOLEAN : String := "boolean"

/-- The `nullboolean` data type. -/
def NULLBOOLEAN : String := "nullboolean"

/-- The `choice` data type. -/
def CHOICE : String := "choice"

/-- The `multichoice` data type. -/
def MULTICHOICE : String := "multichoice"

/-- Data types whose rendered values are wrapped in single quotes. -/
def CONVERSION_REQUIRED : List String := [STRING, DATE, DATE_TIME]

/-- The boolean value `TRUE` (source constant `TRUE`). -/
def TRUE_STR : String := "TRUE"

/-- The boolean value `FALSE` (source constant `FALSE`). -/
def FALSE_STR : String := "FALSE"

/-- The `between` operator. -/
def BETWEEN : String := "between"

/-- Operators that require a `secondary_value`. -/
def BINARY_OPERATORS : List String := [BETWEEN]

/-- MySQL aggregate functions the engine accepts. -/
def ALLOWED_AGGREGATE_FUNCTIONS : List String := ["MIN", "MAX", "COUNT"]

/-- Parameter types allowed in custom-method and subquery schemas. -/
def ALLOWED_CUSTOM_METHOD_PARAM_TYPES : List String :=
  ["field", "integer", "string", "date", "operator", "boolean",
   "variable_template"]

/-- Accepted `IS` right-hand sides for string columns. -/
def IS_OPERATOR_VALUES_FOR_STRING : List String := ["EMPTY", "NOT EMPTY"]

/-- Accepted `IS` right-hand sides for non-string columns. -/
def IS_OPERATOR_VALUE : List String := ["NULL", "NOT NULL", TRUE_STR, FALSE_STR]

/-- Accepted `is_present` right-hand sides. -/
def IS_PRESENT_OPERATOR_VALUE : List String := [TRUE_STR, FALSE_STR]

/-- The `starts_with` operator name. -/
def STARTS_WITH : String := "starts_with"

/-- The `ends_with` operator name. -/
def ENDS_WITH : String := "ends_with"

/-- The `has_substring` operator name. -/
def HAS_SUBSTRING : String := "has_substring"

/-- Operators that wrap the value in `LIKE` wildcards. -/
def LIKE_OPERATORS : List String := [STARTS_WITH, ENDS_WITH, HAS_SUBSTRING]

/-- The dynamic-date value type tag. -/
def DYNAMIC_DATE : String := "DYNAMIC_DATE"

/-- The variable-template value type tag. -/
def VARIABLE_TEMPLATE : String := "VARIABLE_TEMPLATE"

/-- Supported dynamic value types. -/
def DYNAMIC_VALUE_TYPES : List String := [DYNAMIC_DATE, VARIABLE_TEMPLATE]

/-- Supported dynamic-date interval units. -/
def DYNAMIC_DATE_UNITS : List String := ["DAY", "WEEK", "MONTH", "YEAR"]

/-- `getattr(self.DYNAMIC_DATE_OPERATORS, name)`: the namedtuple holding
the two dynamic-date SQL function names. -/
def DYNAMIC_DATE_OPERATORS_get : String → Option String
  | "date_sub" => some "DATE_SUB"
  | "date_add" => some "DATE_ADD"
  | _ => none

/-- `getattr(self.VALUE_OPERATORS, name)`: the namedtuple mapping logical
operator names to SQL operator tokens. -/
def VALUE_OPERATORS_get : String → Option String
  | "equals" => some "="
  | "greater_than" => some ">"
  | "less_than" => some "<"
  | "greater_than_equals" => some ">="
  | "less_than_equals" => some "<="
  | "not_equals" => some "<>"
  | "is_op" => some "IS"
  | "in_op" => some "IN"
  | "like" => some "LIKE"
  | "is_challenge_completed" => some "is_challenge_completed"
  | "is_challenge_not_completed" => some "is_challenge_not_completed"
  | "between" => some BETWEEN
  | "starts_with" => some "LIKE"
  | "ends_with" => some "LIKE"
  | "has_substring" => some "LIKE"
  | "verifies_regex" => some "REGEXP"
  | "is_present" => some "is_present"
  | _ => none

/-- The fixed challenge-existence check (source constant
`CHALLENGE_CHECK_QUERY`, with its `value` placeholder interpolated). -/
def CHALLENGE_CHECK_QUERY (value : String) : String :=
  "EXISTS (SELECT 1 FROM journeys_memberstagechallenge WHERE challenge_id = " ++
    value ++ " AND completed_date IS NOT NULL AND member_id = patients_member.id) "

/-! The compiler object's state. -/

/-- One entry of `field_mapping`: `\x7bfield_name, table_name, data_type\x7d`. -/
structure FieldData where
  field_name : String
  table_name : String
  data_type : String
deriving DecidableEq

/-- One edge of `path_mapping`: parent column, join column and the
optional soft-delete flag column (empty string when absent, matching the
falsiness test `if join_table_active_field:`). -/
structure PathEdgeData where
  parent_column : String
  join_column : String
  join_table_active_field : String
deriving DecidableEq

/-- One entry of `custom_methods`: the stripped template with its declared
parameter schema (a JSON object mapping names to specs). -/
structure MethodData where
  template_str : String
  parameters : JVal

/-- One entry of `subquery_mapping`. -/
structure SubqueryData where
  subquery_template_str : JVal
  subquery_params : JVal
  subquery_fields : JVal
  subquery_is_sql : Bool

/-- One entry of `variable_templates`. -/
structure VarTemplateData where
  variable_template_keyword : String
  variable_template_return_type : String
deriving DecidableEq

/-- The `JSON2SQLGenerator` object: `base_table` is the scratch field
written by `generate_sql`; the five registries are built by `__init__`. -/
structure Gen where
  base_table : String
  field_mapping : List (JVal × FieldData)
  path_mapping : List (String × List (String × PathEdgeData))
  custom_methods : List (JVal × MethodData)
  subquery_mapping : List (JVal × SubqueryData)
  variable_templates : List (String × VarTemplateData)

/-- `_parse_field_mapping`: a dict comprehension over the caller's tuples
`(field_identifier, field_name, table_name, data_type)`; a repeated
identifier silently overwrites the earlier entry, as a Python dict
comprehension does. -/
def parseFieldMapping (field_mapping : List (JVal × String × String × String)) :
    List (JVal × FieldData) :=
  field_mapping.foldl (fun acc f =>
    kdictSet acc f.1 ⟨f.2.1, f.2.2.1, f.2.2.2⟩) []

/-- `_parse_multi_path_mapping`: nests the path tuples into
`join_table ↦ parent_table ↦ edge`, rejecting a repeated
`(join_table, parent_table)` pair. -/
def parseMultiPathMapping
    (paths : List (String × String × String × String × String)) :
    Except String (List (String × List (String × PathEdgeData))) :=
  paths.foldlM (fun path_map p =>
    let (join_tbl, join_fld, parent_tbl, rest) := (p.1, p.2.1, p.2.2.1, p.2.2.2)
    let (parent_fld, join_tbl_active_fld) := rest
    let inner := (path_map.lookup join_tbl).getD []
    if (inner.lookup parent_tbl).isSome then
      .error "Joins with multiple fields is not supported"
    else
      .ok (sdictSet path_map join_tbl
            (sdictSet inner parent_tbl ⟨parent_fld, join_fld, join_tbl_active_fld⟩)))
    []

/-- Check that every declared parameter spec is a dict whose `data_type`
lies in the allowed set (the set comprehension
`\x7bl['data_type'] for l in parameters.values()\x7d` followed by the
subset assertion). -/
def checkParamTypes (pkvs : List (String × JVal)) : Except String Unit :=
  pkvs.foldlM (fun (_ : Unit) kv =>
    match kv.2 with
    | .obj lkvs =>
        match jlookup lkvs "data_type" with
        | some (.str dt) =>
            if ALLOWED_CUSTOM_METHOD_PARAM_TYPES.contains dt then .ok ()
            else .error "Invalid data type defined"
        | some _ => .error "Invalid data type defined"
        | none => .error "KeyError: data_type"
    | _ => .error "TypeError: parameter spec is not subscriptable") ()

/-- The symmetric difference between the declared parameter names and the
template's placeholders is empty. -/
def sameKeySets (pkvs : List (String × JVal)) (tvars : List String) : Bool :=
  pkvs.all (fun kv => tvars.contains kv.1) &&
    tvars.all (fun v => pkvs.any (fun kv => kv.1 = v))

/-- `_validate_custom_methods` over tuples `(id, sql_template, variables)`
(the `json.loads` of the variables column is modelled as the already
parsed `JVal`). -/
def validateCustomMethods (sql_templates : List (JVal × String × JVal)) :
    Except String (List (JVal × MethodData)) :=
  sql_templates.foldlM (fun template_mapping t => do
    let (template_id, template_str0, parameters) := t
    let template_str := pyStrip template_str0
    if template_str.isEmpty then .error "Not a valid template string"
    else if (klookup template_mapping template_id).isSome then
      .error "Template id must be unique"
    else
      match parameters with
      | .obj pkvs =>
          if !sameKeySets pkvs (templateVars template_str) then
            .error "Extra variable defined"
          else do
            checkParamTypes pkvs
            .ok (kdictSet template_mapping template_id ⟨template_str, parameters⟩)
      | _ => .error "AttributeError: keys")
    []

/-- `_parse_subquery_mapping` over tuples
`(id, is_sql, template, fields, parameters)`; the `json.loads` of fields
and parameters (and of the template when `is_sql` is false) is modelled as
the already parsed `JVal`. -/
def parseSubqueryMapping (subqueries : List (JVal × Bool × JVal × JVal × JVal)) :
    Except String (List (JVal × SubqueryData)) :=
  subqueries.foldlM (fun subquery_mapping sq =>
    let (sid, is_sql, template_str, rest) := (sq.1, sq.2.1, sq.2.2.1, sq.2.2.2)
    let (fields, parameters) := rest
    if (klookup subquery_mapping sid).isSome then
      .error "Subquery id must be unique"
    else
      .ok (kdictSet subquery_mapping sid ⟨template_str, parameters, fields, is_sql⟩))
    []

/-- `_parse_variable_templates`: a dict comprehension keyed by
`str(unique_id)`. -/
def parseVariableTemplates (variable_templates : List (JVal × String × String)) :
    List (String × VarTemplateData) :=
  variable_templates.foldl (fun acc t =>
    sdictSet acc (pyStr t.1) ⟨t.2.1, t.2.2⟩) []

/-- The construction bundle of `__init__` (the five required keys; their
presence asserts are represented by the structure itself). -/
structure InitData where
  field_mapping : List (JVal × String × String × String)
  paths : List (String × String × String × String × String)
  custom_methods : List (JVal × String × JVal)
  subqueries : List (JVal × Bool × JVal × JVal × JVal)
  variable_templates : List (JVal × String × String)

/-- `__init__`: build every registry, failing construction on any
validation error; `base_table` starts empty. -/
def initGen (data : InitData) : Except String Gen := do
  let field_mapping := parseFieldMapping data.field_mapping
  let path_mapping ← parseMultiPathMapping data.paths
  let custom_methods ← validateCustomMethods data.custom_methods
  let subquery_mapping ← parseSubqueryMapping data.subqueries
  let variable_templates := parseVariableTemplates data.variable_templates
  .ok ⟨"", field_mapping, path_mapping, custom_methods, subquery_mapping,
       variable_templates⟩

/-- `_validate_subquery` on a stored subquery record. -/
def validateSubquery (subquery : SubqueryData) : Except String Unit := do
  match subquery.subquery_fields with
  | .obj _ => pure ()
  | _ => .error "Sub-Query fields is not a valid json data"
  if subquery.subquery_is_sql then
    match subquery.subquery_template_str with
    | .str tpl =>
        let template_variables := templateVars tpl
        if template_variables.isEmpty then pure ()
        else
          match subquery.subquery_params with
          | .obj pkvs =>
              if !sameKeySets pkvs template_variables then
                .error "Extra variable defined"
              else checkParamTypes pkvs
          | _ => .error "Sub-Query parameters is not a valid json data"
    | _ => .error "TypeError: expected string template"
  else
    match subquery.subquery_template_str with
    | .obj _ => pure ()
    | _ => .error "Sub-Query template is not a valid json data"

/-! The value renderer.  In the subquery-qualified leaf path the data type
is an arbitrary JSON value (`select_field_data.get('data_type')`), so the
whole pipeline takes the data type as a `JVal` and compares it with
Python `==`. -/

/-- `data_type == s` for a string constant `s`. -/
def dtEq (data_type : JVal) (s : String) : Bool := pyEqScalar data_type (.str s)

/-- `data_type in l` for a list of string constants. -/
def dtIn (data_type : JVal) (l : List String) : Bool :=
  l.any (fun s => pyEqScalar data_type (.str s))

/-- `_sanitize_value`: validate a value against its data type (integer
parse, `%Y-%m-%d` date, `%Y-%m-%dT%H:%M:%S` datetime with a plain-date
fallback); other data types pass unchecked. -/
def sanitizeValue (value : JVal) (data_type : JVal) : Except String Unit :=
  if dtEq data_type INTEGER then
    match pyIntCoerce value with
    | .ok _ => .ok ()
    | .valueError => .error "Invalid value for data_type integer"
    | .typeError => .error "TypeError: int() argument"
  else if dtEq data_type DATE then
    match value with
    | .str s =>
        if strptimeDateOk s then .ok ()
        else .error "ValueError: time data does not match format"
    | _ => .error "TypeError: strptime() argument"
  else if dtEq data_type DATE_TIME then
    match value with
    | .str s =>
        if strptimeDateTimeOk s || strptimeDateOk s then .ok ()
        else .error "ValueError: time data does not match format"
    | _ => .error "TypeError: strptime() argument"
  else .ok ()

/-- `_validate_sql_values`: truthy non-dict values are sanitized and, for
the string type, escaped; everything else passes through unchanged. -/
def validateSqlValues (value : JVal) (data_type : JVal) :
    Except String JVal := do
  if value.truthy && !(match value with | .obj _ => true | _ => false) then do
    sanitizeValue value data_type
    if dtEq data_type STRING then
      match value with
      | .str s => .ok (.str (sqlInjectionProof s))
      | _ => .error "TypeError: escape_string expects a string"
    else .ok value
  else .ok value

/-- `_convert_values` on the single-element lists the engine passes:
choice/multichoice quote only when the value does not parse as an int
(`int(...)` raising `TypeError` is not caught), string/date/datetime are
quoted, everything else is rendered bare. -/
def convertValuesOne (value : JVal) (data_type : JVal) : Except String String :=
  if dtIn data_type [CHOICE, MULTICHOICE] then
    match pyIntCoerce value with
    | .ok _ => .ok (pyStr value)
    | .valueError => .ok ("'" ++ pyStr value ++ "'")
    | .typeError => .error "TypeError: int() argument"
  else if dtIn data_type CONVERSION_REQUIRED then
    .ok ("'" ++ pyStr value ++ "'")
  else .ok (pyStr value)

/-- `_get_dynamic_date_validated_data`: `none` means "use `NOW()` only";
`some (operator, offset, unit)` carries the lowered operator name, the raw
offset and the raw unit. -/
def getDynamicDateValidatedData (value : JVal) :
    Except String (Option (String × JVal × JVal)) :=
  match value with
  | .obj kvs =>
      let keyErrBranch : Except String (Option (String × JVal × JVal)) :=
        if (jlookup kvs "operator").isNone && (jlookup kvs "offset").isNone &&
           (jlookup kvs "unit").isNone then
          .ok none
        else .error "Missing key in dynamic date value dict"
      match jlookup kvs "operator" with
      | none => keyErrBranch
      | some opv =>
          match opv with
          | .str ops =>
              let operator := pyLower ops
              match jlookup kvs "offset" with
              | none => keyErrBranch
              | some offset =>
                  match jlookup kvs "unit" with
                  | none => keyErrBranch
                  | some unitv =>
                      if !offset.truthy then .ok none
                      else if !unitv.truthy || !opv.truthy then
                        .error "Value for unit and operator is required when offset is given in dynamic date"
                      else .ok (some (operator, offset, unitv))
          | _ => .error "AttributeError: lower"
  | _ => .error "TypeError: value is not subscriptable"

/-- `_generate_dynamic_date`: `NOW()` alone, or
`DATE_ADD/DATE_SUB(NOW(), INTERVAL <offset> <unit>)`. -/
def generateDynamicDate (value : JVal) (_data_type : JVal) :
    Except String String := do
  let validated_data ← getDynamicDateValidatedData value
  match validated_data with
  | none => .ok "NOW()"
  | some (operator, offset, unitv) =>
      match DYNAMIC_DATE_OPERATORS_get operator with
      | none => .error "AttributeError: DYNAMIC_DATE_OPERATORS"
      | some sql_operator =>
          match unitv with
          | .str us =>
              let unit := pyUpper (sqlInjectionProof us)
              match pyIntCoerce offset with
              | .ok n =>
                  if DYNAMIC_DATE_UNITS.contains unit then
                    .ok (sql_operator ++ "(NOW(), INTERVAL " ++ toString n ++
                          " " ++ unit ++ ")")
                  else .error "Unsupported dynamic date units"
              | .valueError => .error "Invalid value for offset"
              | .typeError => .error "TypeError: int() argument"
          | _ => .error "TypeError: escape_string expects a string"

/-- `_generate_variable_template`: look the template up by its id, check
its return type against the field's data type and emit the wrapped
`\x7bkeyword\x7d` placeholder. -/
def generateVariableTemplate (g : Gen) (value : JVal) (data_type : JVal) :
    Except String String :=
  let variable_template_id := value.getN "variable_template_id"
  if !variable_template_id.truthy then
    .error "Missing key - [variable_template_id]"
  else
    match variable_template_id with
    | .str s =>
        match g.variable_templates.lookup s with
        | none => .error "KeyError: variable_templates"
        | some template_data =>
            if pyEqScalar (.str template_data.variable_template_return_type)
                data_type then
              convertValuesOne
                (.str ("\x7b" ++ template_data.variable_template_keyword ++ "\x7d"))
                data_type
            else
              .error "Data type of field does not match return type of variable template"
    | _ => .error "KeyError: variable_templates"

/-- `_get_sql_value`: validate, then dispatch dict values through the
dynamic-value mapping and plain values through `_convert_values`. -/
def getSqlValue (g : Gen) (value : JVal) (data_type : JVal) :
    Except String String := do
  let value ← validateSqlValues value data_type
  match value with
  | .obj kvs =>
      match jlookup kvs "type" with
      | none => .error "Missing key - [type] in value dict"
      | some tv =>
          match tv with
          | .str ts =>
              let value_type := pyUpper ts
              if value_type = DYNAMIC_DATE then
                generateDynamicDate (.obj kvs) data_type
              else if value_type = VARIABLE_TEMPLATE then
                generateVariableTemplate g (.obj kvs) data_type
              else .error "Invalid dynamic value type"
          | _ => .error "AttributeError: upper"
  | _ => convertValuesOne value data_type

/-- Python's `len(...)` where the engine applies it to a parameter's
declared data type. -/
def pyLen : JVal → Except String Nat
  | .str s => .ok s.length
  | .arr xs => .ok xs.length
  | .obj kvs => .ok kvs.length
  | _ => .error "TypeError: object has no len()"

/-- `_process_parameter`: falsy or missing `value` short-circuits to
`None`; otherwise the value is sanitized (except for dates) and rendered
according to the declared parameter type. -/
def processParameter (g : Gen) (data_type : JVal) (parameter_data : JVal) :
    Except String PValue := do
  let n ← pyLen data_type
  if n = 0 then .error "Invalid data type"
  else
    match parameter_data with
    | .obj pkvs =>
        let value := (jlookup pkvs "value").getD .null
        if !value.truthy then .ok .pnone
        else
          match data_type with
          | .str dts => do
              let data_type_upper := pyUpper dts
              if data_type_upper ≠ "DATE" then
                sanitizeValue value (.str (pyLower dts))
              else pure ()
              if data_type_upper = "FIELD" then
                match jlookup pkvs "field" with
                | none => .error "KeyError: field"
                | some fk =>
                    match klookup g.field_mapping fk with
                    | none => .error "KeyError: field_mapping"
                    | some field_data =>
                        .ok (.pstr ("`" ++ field_data.table_name ++ "`.`" ++
                              field_data.field_name ++ "`"))
              else if data_type_upper = "INTEGER" then
                match pyIntCoerce value with
                | .ok m => .ok (.pint m)
                | .valueError => .error "ValueError: invalid literal for int()"
                | .typeError => .error "TypeError: int() argument"
              else if data_type_upper = "STRING" then
                match value with
                | .str s => .ok (.pstr ("'" ++ sqlInjectionProof s ++ "'"))
                | _ => .error "TypeError: escape_string expects a string"
              else if data_type_upper = "DATE" then do
                let v ← getSqlValue g value data_type
                .ok (.pstr v)
              else if data_type_upper = "OPERATOR" then
                match value with
                | .str s =>
                    match VALUE_OPERATORS_get s with
                    | some op => .ok (.pstr op)
                    | none => .error "AttributeError: VALUE_OPERATORS"
                | _ => .error "TypeError: attribute name must be string"
              else if data_type_upper = "BOOLEAN" then
                match value with
                | .str s =>
                    let v := pyUpper s
                    if IS_OPERATOR_VALUE.contains v then .ok (.pstr v)
                    else .error "Invalid value for boolean type"
                | _ => .error "AttributeError: upper"
              else if data_type_upper = "VARIABLE_TEMPLATE" then
                match value with
                | .str s =>
                    .ok (.pstr ("\x7b" ++ sqlInjectionProof s ++ "\x7d"))
                | _ => .error "TypeError: escape_string expects a string"
              else .error "AttributeError: unsupported data type for parameter"
          | _ => .error "AttributeError: upper"
    | _ => .error "Invalid parameter data format"

/-- Resolve one supplied parameter of a custom method or SQL subquery
against the declared schema and fold it into the validated dict
(the shared body of the loops in `_parse_custom_method_condition` and
`generate_subquery`). -/
def processOneParam (g : Gen) (declared : JVal)
    (acc : List (String × PValue)) (param_id : String) (param_data : JVal) :
    Except String (List (String × PValue)) := do
  match declared with
  | .obj tps =>
      match jlookup tps param_id with
      | none => .error "Invalid parameter name."
      | some spec =>
          match spec with
          | .obj skvs =>
              match jlookup skvs "data_type" with
              | none => .error "KeyError: data_type"
              | some param_type => do
                  let v ← processParameter g param_type param_data
                  .ok (pdictSet acc param_id v)
          | _ => .error "TypeError: parameter spec is not subscriptable"
  | _ => .error "TypeError: declared parameters are not subscriptable"

/-- The declared parameter names and the collected validated names have an
empty symmetric difference. -/
def paramsComplete (declared : List (String × JVal))
    (validated : List (String × PValue)) : Bool :=
  declared.all (fun kv => (plookup validated kv.1).isSome) &&
    validated.all (fun kv => (jlookup declared kv.1).isSome)

/-- `_parse_custom_method_condition` (also handles `questionnaire`
nodes): resolve each supplied parameter, check the key sets coincide, and
interpolate the template. -/
def parseCustomMethodCondition (g : Gen) (data : JVal) :
    Except String String := do
  match data with
  | .obj kvs =>
      match jlookup kvs "template_id" with
      | none => .error "No template_id is provided"
      | some template_id =>
          match klookup g.custom_methods template_id with
          | none => .error "KeyError: custom_methods"
          | some template_data => do
              let supplied ←
                match jlookup kvs "parameters" with
                | none => .ok ([] : List (String × JVal))
                | some (.obj ps) => .ok ps
                | some _ => .error "AttributeError: items"
              let validated ← supplied.foldlM
                (fun acc p => processOneParam g template_data.parameters acc p.1 p.2)
                []
              match template_data.parameters with
              | .obj tps =>
                  if paramsComplete tps validated then
                    pyFormat template_data.template_str validated
                  else .error "Missing or extra template variable"
              | _ => .error "AttributeError: keys"
  | _ => .error "Input data must be a dict"

/-! The predicate evaluator. -/

/-- `_get_validated_data`: extract `(operator, value, field,
secondary_value)` from a where leaf, lowering the operator and requiring a
truthy `secondary_value` for binary operators. -/
def getValidatedData (where_ : List (String × JVal)) :
    Except String (String × JVal × JVal × JVal) :=
  match jlookup where_ "operator" with
  | none => .error "Missing key - [operator] in where condition dict"
  | some opv =>
      match opv with
      | .str ops =>
          let operator := pyLower ops
          match jlookup where_ "value" with
          | none => .error "Missing key - [value] in where condition dict"
          | some value =>
              match jlookup where_ "field" with
              | none => .error "Missing key - [field] in where condition dict"
              | some field =>
                  let secondary_value := (jlookup where_ "secondary_value").getD .null
                  if BINARY_OPERATORS.contains operator && !secondary_value.truthy then
                    .error "Missing key - [secondary_value] for operator"
                  else .ok (operator, value, field, secondary_value)
      | _ => .error "AttributeError: lower"

/-- The tail of `_generate_where_phrase` once the operator, the resolved
field name, table and data type are known: `IS` rewriting or `LIKE`
wildcarding plus value rendering, the aggregate wrapping of the left-hand
side, and the operator-specific SQL phrase. -/
def wherePhraseCore (g : Gen) (wkvs : List (String × JVal))
    (operator sql_operator0 : String) (value0 secondary_value : JVal)
    (field_name table data_type : JVal) : Except String String := do
  let triple ←
    (if sql_operator0 = "IS" then
      match value0 with
      | .str vs =>
          let value_in_upper_case := pyUpper vs
          if dtEq data_type STRING then
            if IS_OPERATOR_VALUES_FOR_STRING.contains value_in_upper_case then
              let sql_operator :=
                if containsSub value_in_upper_case "NOT" then "<>" else "="
              .ok ((sql_operator, "''", none) : String × String × Option String)
            else .error "Invalid rhs for `IS` operator"
          else
            if IS_OPERATOR_VALUE.contains value_in_upper_case then
              .ok (("IS", vs, none) : String × String × Option String)
            else .error "Invalid rhs for `IS` operator"
      | _ => .error "AttributeError: upper"
    else do
      let value1 : JVal :=
        if dtEq data_type STRING && LIKE_OPERATORS.contains operator then
          if operator = STARTS_WITH then .str (pyStr value0 ++ "%%")
          else if operator = ENDS_WITH then .str ("%%" ++ pyStr value0)
          else .str ("%%" ++ pyStr value0 ++ "%%")
        else value0
      let sql_value ← getSqlValue g value1 data_type
      let secondary_sql_value ← getSqlValue g secondary_value data_type
      .ok ((sql_operator0, sql_value, some secondary_sql_value) :
            String × String × Option String))
  let (sql_operator, sql_value, secondary_sql_value) := triple
  let lhs0 := "`" ++ pyStr table ++ "`.`" ++ pyStr field_name ++ "`"
  let lhs ←
    (match jlookup wkvs "aggregate_lhs" with
    | some agg =>
        if agg.truthy then
          match agg with
          | .str as0 =>
              let aggregate_func_name := pyUpper as0
              if ALLOWED_AGGREGATE_FUNCTIONS.contains aggregate_func_name then
                .ok (aggregate_func_name ++ "(" ++ lhs0 ++ ")")
              else .ok lhs0
          | _ => .error "AttributeError: upper"
        else .ok lhs0
    | none => .ok lhs0)
  if sql_operator = "is_challenge_completed" ||
     sql_operator = "is_challenge_not_completed" then
    .ok ((if sql_operator = "is_challenge_not_completed" then "NOT" else "") ++
          " " ++ CHALLENGE_CHECK_QUERY sql_value)
  else if sql_operator = "is_present" then
    let value_in_upper_case0 := pyUpper sql_value
    let value_in_upper_case :=
      if dtEq data_type CHOICE then stripQuotes value_in_upper_case0
      else value_in_upper_case0
    if IS_PRESENT_OPERATOR_VALUE.contains value_in_upper_case then
      let is_present := value_in_upper_case = TRUE_STR
      .ok (lhs ++ " IS " ++ (if is_present then "NOT " else "") ++ "NULL " ++
            (if is_present then AND_CONDITION else OR_CONDITION) ++ " " ++
            lhs ++ " " ++ (if is_present then "!" else "") ++ "= ''")
    else .error "Invalid rhs for `is_present` operator"
  else if sql_operator = BETWEEN then
    .ok (lhs ++ " " ++ sql_operator ++ " " ++ sql_value ++ " AND " ++
          (match secondary_sql_value with | some sv => sv | none => "None"))
  else
    .ok (lhs ++ " " ++ sql_operator ++ " " ++ sql_value)

/-- `_generate_where_phrase`: validate the leaf, map the operator, resolve
the field against the subquery's field map or the global field mapping,
and delegate to `wherePhraseCore`. -/
def generateWherePhrase (g : Gen) (where_ : JVal) : Except String String := do
  match where_ with
  | .obj wkvs => do
      let (operator, value0, field, secondary_value) ← getValidatedData wkvs
      match VALUE_OPERATORS_get operator with
      | none => .error "AttributeError: VALUE_OPERATORS"
      | some sql_operator0 =>
          if (jlookup wkvs "subquery").isSome then
            let sq := (jlookup wkvs "subquery").getD .null
            match klookup g.subquery_mapping sq with
            | none => .error "KeyError: subquery_mapping"
            | some subquery =>
                match subquery.subquery_fields with
                | .obj sfs =>
                    let subquery_select_field :=
                      (match field with
                       | .str fs => jlookup sfs fs
                       | _ => none).getD .null
                    match subquery_select_field with
                    | .obj sskvs =>
                        wherePhraseCore g wkvs operator sql_operator0 value0
                          secondary_value
                          ((jlookup sskvs "alias").getD .null)
                          ((jlookup wkvs "alias").getD .null)
                          ((jlookup sskvs "data_type").getD .null)
                    | _ => .error "AttributeError: get"
                | _ => .error "AttributeError: get"
          else
            match klookup g.field_mapping field with
            | none => .error "KeyError: field_mapping"
            | some fd =>
                wherePhraseCore g wkvs operator sql_operator0 value0
                  secondary_value (.str fd.field_name) (.str fd.table_name)
                  (.str fd.data_type)
  | _ => .error "Where condition data must be a dict"

/-- One element of `_parse_conditions`' loop: take the element's first
key and dispatch its value through the condition mapping. -/
def condChildStep (dispatch : String → JVal → Except String String)
    (element : JVal) : Except String String :=
  match element with
  | .obj [] => .error "IndexError: list index out of range"
  | .obj ((inner_condition, v) :: _) => dispatch inner_condition v
  | _ => .error "AttributeError: keys"

/-- The accumulator loop of `_parse_conditions`: the first fragment of an
`and`/`or` node is wrapped bare, every later fragment (and every fragment
of other node kinds) is prefixed with ` <condition> `, and the whole
accumulated string is parenthesised. -/
def parseCondLoop (step : JVal → Except String String) (condition : String) :
    List JVal → String → Except String String
  | [], sql => .ok ("(" ++ sql ++ ")")
  | element :: rest, sql =>
      match step element with
      | .error msg => .error msg
      | .ok result =>
          let sql_result :=
            if sql = "" ∧ (condition = AND_CONDITION ∨ condition = OR_CONDITION)
            then "(" ++ result ++ ")"
            else " " ++ condition ++ " (" ++ result ++ ")"
          parseCondLoop step condition rest (sql ++ sql_result)

/-- `_parse_conditions` (the shared body of `_parse_and`, `_parse_or` and
`_parse_not`). -/
def parseConditions (dispatch : String → JVal → Except String String)
    (condition : String) (data : JVal) : Except String String := do
  let elems ← pyIterate data
  parseCondLoop (condChildStep dispatch) condition elems ""

/-- `WHERE_CONDITION_MAPPING` dispatch with a fuel bound on the tree
depth (the Python recursion is bounded only by the interpreter's stack). -/
def condDispatch (g : Gen) : Nat → String → JVal → Except String String
  | 0, _, _ => .error "RecursionError: maximum recursion depth exceeded"
  | fuel+1, condition, data =>
      if condition = WHERE_CONDITION then generateWherePhrase g data
      else if condition = AND_CONDITION then
        parseConditions (condDispatch g fuel) AND_CONDITION data
      else if condition = OR_CONDITION then
        parseConditions (condDispatch g fuel) OR_CONDITION data
      else if condition = NOT_CONDITION then
        parseConditions (condDispatch g fuel) NOT_CONDITION data
      else if condition = EXISTS_CONDITION then
        .error "NotImplementedError"
      else if condition = CUSTOM_METHOD_CONDITION then
        parseCustomMethodCondition g data
      else if condition = QUESTIONNAIRE_CONDITION then
        parseCustomMethodCondition g data
      else .error "TypeError: WHERE_CONDITION_MAPPING has no such key"

/-- `_generate_sql_condition`: falsy data yields the empty fragment,
otherwise the first key of the dict selects the handler. -/
def generateSqlCondition (g : Gen) (fuel : Nat) (data : JVal) :
    Except String String :=
  if !data.truthy then .ok ""
  else
    match data with
    | .obj ((condition, v) :: _) => condDispatch g fuel condition v
    | .obj [] => .ok ""
    | _ => .error "AttributeError: keys"

/-- `extract_key_from_nested_dict`: yield, in iteration order, the value
under `key` at every dict nesting level; values reached through lists are
not visited.  Fuel bounds the dict depth. -/
def extractKeyFromNestedDict (key : String) : Nat → JVal → List JVal
  | 0, _ => []
  | fuel+1, v =>
      match v with
      | .obj kvs =>
          kvs.foldr (fun kv acc =>
            (if kv.1 = key then [kv.2]
             else extractKeyFromNestedDict key fuel kv.2) ++ acc) []
      | _ => []

/-- The per-condition assertion loop of `validate_where_data`. -/
def checkWhereConds : List JVal → Except String Unit
  | [] => .ok ()
  | cond :: rest =>
      match cond with
      | .obj ckvs =>
          if pyEqScalar ((jlookup ckvs "aggregate_lhs").getD (.str "")) (.str "")
          then checkWhereConds rest
          else .error "Use of non aggregate value or non grouped field"
      | _ => .error "Invalid where condition"

/-- `validate_where_data`: the data must be a non-empty dict, and every
`where` value the nested-dict extraction reaches must be a dict whose
`aggregate_lhs` defaults to or equals the empty string. -/
def validateWhereData (fuel : Nat) (where_data : JVal) : Except String Unit :=
  match where_data with
  | .obj kvs =>
      if kvs.isEmpty then .error "Invalid or empty where data"
      else checkWhereConds (extractKeyFromNestedDict WHERE_CONDITION fuel where_data)
  | _ => .error "Invalid or empty where data"

/-- `validate_group_by_data`: every `where` value extracted from the
having clause must be a dict that either carries an `aggregate_lhs` key or
references a grouped field. -/
def validateGroupByData (fuel : Nat) (group_by_fields : List JVal)
    (having : JVal) : Except String Unit :=
  (extractKeyFromNestedDict WHERE_CONDITION fuel having).foldlM
    (fun (_ : Unit) cond =>
      match cond with
      | .obj ckvs =>
          if (jlookup ckvs "aggregate_lhs").isSome ||
             group_by_fields.any
               (fun f => pyEqScalar ((jlookup ckvs "field").getD .null) f) then
            .ok ()
          else .error "Use of non aggregate value or non grouped field"
      | _ => .error "where condition needs to be dict") ()

/-! The join planner. -/

/-- Insert into an ascending list (the model of Python's `sorted` over a
set of table names). -/
def insertSorted (s : String) : List String → List String
  | [] => [s]
  | t :: rest => if strLe s t then s :: t :: rest else t :: insertSorted s rest

/-- Ascending sort of table names. -/
def sortStrings (l : List String) : List String := l.foldr insertSorted []

/-- `path_subset[parent_node].add(curr_node)`: a `defaultdict(set)` add
(the list holds each child once). -/
def subsetAdd (path_subset : List (String × List String))
    (parent curr : String) : List (String × List String) :=
  let cur := (path_subset.lookup parent).getD []
  sdictSet path_subset parent (if cur.contains curr then cur else cur ++ [curr])

/-- The worklist loop of `extract_paths_subset`.  The worklist's top is the
list head (Python appends and pops at the tail); fuel bounds the number of
iterations, which Python does not (a cyclic path graph loops forever). -/
def extractPathsSubsetLoop (g : Gen) (start_nodes : List String)
    (path_hints : JVal) :
    Nat → List String → List (String × List String) →
    Except String (List (String × List String))
  | 0, traversal_nodes, path_subset =>
      match traversal_nodes with
      | [] => .ok path_subset
      | _ => .error "RecursionError: path traversal fuel exhausted"
  | fuel+1, traversal_nodes, path_subset =>
      match traversal_nodes with
      | [] => .ok path_subset
      | curr_node :: rest =>
          if curr_node = g.base_table then
            extractPathsSubsetLoop g start_nodes path_hints fuel rest path_subset
          else
            let next_nodes := (g.path_mapping.lookup curr_node).getD []
            match pyIn curr_node path_hints with
            | .error e => .error e
            | .ok true =>
                match path_hints with
                | .obj hkvs =>
                    let hint := (jlookup hkvs curr_node).getD .null
                    match hint with
                    | .str parent_node =>
                        if (next_nodes.lookup parent_node).isNone then
                          .error "Node provided in hint is not a valid option."
                        else
                          let hint_values := hkvs.map (fun kv => kv.2)
                          let selectable := (next_nodes.map (fun e => e.1)).countP
                            (fun k => start_nodes.contains k ||
                              hint_values.any (fun hv => pyEqScalar hv (.str k)))
                          if selectable ≠ 1 then
                            .error "Multiple paths are selected from node"
                          else
                            extractPathsSubsetLoop g start_nodes path_hints fuel
                              (parent_node :: rest)
                              (subsetAdd path_subset parent_node curr_node)
                    | _ => .error "Node provided in hint is not a valid option."
                | _ => .error "TypeError: path_hints is not subscriptable"
            | .ok false =>
                match next_nodes with
                | [(parent_node, _)] =>
                    extractPathsSubsetLoop g start_nodes path_hints fuel
                      (parent_node :: rest)
                      (subsetAdd path_subset parent_node curr_node)
                | _ => .error ("No path hint provided for `" ++ curr_node ++ "`")

/-- `extract_paths_subset`: deduplicate the start nodes (`set(...)`; set
iteration order is unspecified and never observable in the result) and run
the worklist to the base table. -/
def extractPathsSubset (g : Gen) (fuel : Nat) (start_nodes0 : List String)
    (path_hints : JVal) : Except String (List (String × List String)) :=
  let start_nodes := start_nodes0.dedup
  extractPathsSubsetLoop g start_nodes path_hints fuel start_nodes []

/-- `create_join_path`: depth-first descent through the subset, children
sorted by name, yielding `(join_table, parent_table)` pairs.  Fuel bounds
the recursion depth (Python's is bounded by the interpreter's stack). -/
def createJoinPath (path_map : List (String × List String)) :
    Nat → String → Except String (List (String × String))
  | 0, _ => .error "RecursionError: maximum recursion depth exceeded"
  | fuel+1, curr_table =>
      match path_map.lookup curr_table with
      | none => .ok []
      | some children =>
          (sortStrings children).foldlM (fun acc table_name => do
            let sub ← createJoinPath path_map fuel table_name
            .ok (acc ++ [(table_name, curr_table)] ++ sub)) []

/-- `generate_left_join`: render each `(join_table, parent_table)` pair as
a `LEFT JOIN` with the edge's columns, conjoining the active-flag test
when the edge carries one. -/
def generateLeftJoin (g : Gen) (join_path : List (String × String)) :
    Except String String := do
  let join_phrases ← join_path.mapM (fun jp => do
    let (join_table, parent_table) := jp
    match ((g.path_mapping.lookup join_table).getD []).lookup parent_table with
    | none => .error "KeyError: path_mapping"
    | some edge =>
        let join_condition := join_table ++ "." ++ edge.join_column ++ " = " ++
          parent_table ++ "." ++ edge.parent_column
        let join_condition :=
          if !edge.join_table_active_field.isEmpty then
            "(" ++ join_condition ++ " AND " ++ join_table ++ "." ++
              edge.join_table_active_field ++ " = TRUE)"
          else join_condition
        .ok ("LEFT JOIN " ++ join_table ++ " ON " ++ join_condition))
  .ok (String.intercalate " " join_phrases)

/-! The emitter. -/

/-- `generate_group_by`: validate the having clause, then emit
`GROUP BY <fields> [HAVING <condition>]` (empty when no group-by
fields). -/
def generateGroupBy (g : Gen) (fuel : Nat) (group_by_fields : List JVal)
    (having_clause : JVal) : Except String String := do
  match having_clause with
  | .obj hkvs => do
      validateGroupByData fuel group_by_fields having_clause
      if group_by_fields.isEmpty then .ok ""
      else do
        let fully_qualified_field_names ← group_by_fields.mapM (fun field_id =>
          match klookup g.field_mapping field_id with
          | some fd => .ok ("`" ++ fd.table_name ++ "`.`" ++ fd.field_name ++ "`")
          | none => .error "KeyError: field_mapping")
        let result := "GROUP BY " ++
          String.intercalate ", " fully_qualified_field_names
        if !hkvs.isEmpty then do
          let condition ← generateSqlCondition g fuel having_clause
          .ok (result ++ " HAVING " ++ condition)
        else .ok result
  | _ => .error "AssertionError: having must be a dict"

/-- `generate_select_phrase`: a truthy `select_fields` dict renders each
entry as an optionally aggregated backticked column with an alias, the
special `member_id` key resolving against category and field; otherwise
the default count over the base table's id. -/
def generateSelectPhrase (g : Gen) (select_fields : Option JVal) :
    Except String String :=
  let sf := select_fields.getD .null
  if sf.truthy then
    match sf with
    | .obj skvs => do
        let select_phrase ← skvs.mapM (fun kv => do
          let (select_field_alias, select_field_data) := kv
          match select_field_data with
          | .obj dkvs => do
              let ft ←
                (if select_field_alias ≠ "member_id" then
                  match jlookup dkvs "field" with
                  | none => .error "KeyError: field"
                  | some fk =>
                      match klookup g.field_mapping fk with
                      | none => .error "KeyError: field_mapping"
                      | some fd => .ok (fd.field_name, fd.table_name)
                else
                  match jlookup dkvs "field", jlookup dkvs "category" with
                  | some fv, some cv => .ok (pyStr fv, pyStr cv)
                  | none, _ => .error "KeyError: field"
                  | _, none => .error "KeyError: category")
              let select_field := "`" ++ ft.2 ++ "`.`" ++ ft.1 ++ "`"
              let select_field ←
                (match jlookup dkvs "aggregate_lhs" with
                | some agg =>
                    if agg.truthy then
                      match agg with
                      | .str as0 =>
                          let aggregate_func_name := pyUpper as0
                          if ALLOWED_AGGREGATE_FUNCTIONS.contains
                              aggregate_func_name then
                            .ok (aggregate_func_name ++ "(" ++ select_field ++ ")")
                          else .error "Unsupported aggregate functions"
                      | _ => .error "AttributeError: upper"
                    else .ok select_field
                | none => .ok select_field)
              match jlookup dkvs "alias" with
              | none => .error "Alias name is missing for select field in subquery"
              | some av =>
                  match av with
                  | .str as1 =>
                      .ok (sqlInjectionProof select_field ++ " AS " ++
                            sqlInjectionProof as1)
                  | _ => .error "TypeError: escape_string expects a string"
          | _ => .error "TypeError: select field data is not subscriptable")
        .ok (String.intercalate ", " select_phrase)
    | _ => .error "AttributeError: items"
  else .ok ("COUNT(DISTINCT `" ++ g.base_table ++ "`.`id`)")

/-- `_generate_alias_params`: map each subquery's alias to its parameters
dict. -/
def generateAliasParams (subqueries : List JVal) :
    Except String (List (JVal × JVal)) :=
  subqueries.foldlM (fun alias_params subquery =>
    match subquery with
    | .obj skvs =>
        if (jlookup skvs "alias").isNone then .error "Alias is not present"
        else
          .ok (kdictSet alias_params ((jlookup skvs "alias").getD .null)
                ((jlookup skvs "parameters").getD (.obj [])))
    | _ => do
        let has ← pyIn "alias" subquery
        if has then .error "AttributeError: get" else .error "Alias is not present")
    []

/-- The keyword arguments `generate_sql` reads: each field present models
the key being in `**kwargs`. -/
structure Kwargs where
  additional_where_clause : Option String
  alias_params : Option (List (JVal × JVal))
  select_fields : Option JVal

/-- Keyword arguments with none of the keys present. -/
def Kwargs.none : Kwargs := ⟨Option.none, Option.none, Option.none⟩

/-- Scan the subquery's field map for the entry marked `is_member_id`,
yielding its alias as the join field (the last marked entry wins). -/
def findJoinFld (select_fields : JVal) : Except String (Option JVal) :=
  match select_fields with
  | .obj fkvs =>
      fkvs.foldlM (fun (join_fld : Option JVal) kv =>
        match kv.2 with
        | .obj dk =>
            if ((jlookup dk "is_member_id").getD .null).truthy then
              if (jlookup dk "alias").isSome then
                .ok (some ((jlookup dk "alias").getD .null))
              else .error "Alias is required for field"
            else .ok join_fld
        | _ => .error "AttributeError: get") none
  | _ => .error "AttributeError: items"

/-- Parameter binding of an SQL subquery: resolve each supplied parameter
against the declared schema and interpolate the template. -/
def bindSubquerySql (g : Gen) (subquery : SubqueryData) (ap : JVal) :
    Except String String := do
  let ps ←
    match ap with
    | .obj laps => .ok laps
    | _ => .error "AttributeError: items"
  let validated_parameters ← ps.foldlM
    (fun acc p => processOneParam g subquery.subquery_params acc p.1 p.2) []
  match subquery.subquery_template_str with
  | .str tpl => pyFormat tpl validated_parameters
  | _ => .error "AttributeError: format"

/-- The loop of `generate_subquery`, threading the object state through
the recursive `generate_sql` invocation (`recur`).  For a non-SQL
subquery Python passes the registry's stored request dict itself into the
recursive `generate_sql`, so the `group_by_fields` rewrite that call
performs lands in the registry; the by-value model renders this aliasing
by storing the request dict the recursive call returns back into the
record, whether the call succeeded or raised. -/
def generateSubqueryLoop
    (recur : Gen → JVal → String → Kwargs → Gen × JVal × Except String String)
    (alias_params : List (JVal × JVal)) :
    Gen → List JVal → List String → Gen × Except String String
  | g, [], acc => (g, .ok (String.intercalate " " acc))
  | g, subquery_dict :: rest, acc =>
      match subquery_dict with
      | .obj skvs =>
          if (jlookup skvs "unique_id").isSome then
            let uid := (jlookup skvs "unique_id").getD .null
            match klookup g.subquery_mapping uid with
            | none => (g, .error "KeyError: subquery_mapping")
            | some subquery =>
                match validateSubquery subquery with
                | .error e => (g, .error e)
                | .ok () =>
                    if (jlookup skvs "alias").isNone then
                      (g, .error "Alias is not present")
                    else
                      let aliasV := (jlookup skvs "alias").getD .null
                      match findJoinFld subquery.subquery_fields with
                      | .error e => (g, .error e)
                      | .ok join_fld =>
                          if subquery.subquery_is_sql then
                            let ap := (klookup alias_params aliasV).getD (.obj [])
                            match bindSubquerySql g subquery ap with
                            | .error e => (g, .error e)
                            | .ok sql =>
                                match join_fld with
                                | none =>
                                    (g, .error "Member id mapping is required in the subquery")
                                | some jf =>
                                    generateSubqueryLoop recur alias_params g rest
                                      (acc ++ ["LEFT JOIN ( " ++ sql ++ " ) AS " ++
                                        pyStr aliasV ++ " ON `" ++ pyStr aliasV ++
                                        "`.`" ++ pyStr jf ++ "` = `" ++
                                        g.base_table ++ "`.`id`"])
                          else
                            let join_fld2 : JVal :=
                              match join_fld with
                              | some j => if j.truthy then j else .str "member_id"
                              | none => .str "member_id"
                            let res := recur g subquery.subquery_template_str
                              g.base_table
                              ⟨Option.none, some alias_params,
                                some subquery.subquery_fields⟩
                            let rec2 : SubqueryData :=
                              { subquery with subquery_template_str := res.2.1 }
                            let g1 : Gen :=
                              { res.1 with subquery_mapping :=
                                  (kdictSet res.1.subquery_mapping uid rec2) }
                            match res.2.2 with
                            | .error e => (g1, .error e)
                            | .ok sql =>
                                generateSubqueryLoop recur alias_params g1 rest
                                  (acc ++ ["LEFT JOIN ( " ++ sql ++ " ) AS " ++
                                    pyStr aliasV ++ " ON `" ++ pyStr aliasV ++
                                    "`.`" ++ pyStr join_fld2 ++ "` = `" ++
                                    g1.base_table ++ "`.`id`"])
          else generateSubqueryLoop recur alias_params g rest acc
      | _ =>
          match pyIn "unique_id" subquery_dict with
          | .error e => (g, .error e)
          | .ok true => (g, .error "TypeError: subquery entry is not subscriptable")
          | .ok false => generateSubqueryLoop recur alias_params g rest acc

/-- `generate_sql`: the top-level compilation.  Returns the object state
after the call, the request dict after the call (its `group_by_fields`
entry is rewritten in place) and the produced SQL or the raised error.
Fuel bounds the subquery recursion and the loops that Python leaves
unbounded. -/
def generateSql : Nat → Gen → JVal → String → Kwargs →
    Gen × JVal × Except String String
  | 0, g, data, _, _ =>
      (g, data, .error "RecursionError: maximum recursion depth exceeded")
  | fuel+1, g0, data, base_table, kwargs =>
      let g : Gen := { g0 with base_table := base_table }
      match data with
      | .obj dkvs0 =>
          match validateWhereData (fuel+1) ((JVal.obj dkvs0).getD "where_data" (.obj [])) with
          | .error e => (g, data, .error e)
          | .ok () =>
              match jlookup dkvs0 "where_data" with
              | none => (g, data, .error "KeyError: where_data")
              | some wd =>
                  match generateSqlCondition g (fuel+1) wd with
                  | .error e => (g, data, .error e)
                  | .ok where_phrase0 =>
                      let where_phrase :=
                        match kwargs.additional_where_clause with
                        | some awc => where_phrase0 ++ awc
                        | none => where_phrase0
                      let gbStep : Except String (List (String × JVal)) :=
                        match jlookup dkvs0 "group_by_fields" with
                        | none => .ok dkvs0
                        | some gbf =>
                            match gbf with
                            | .arr xs => do
                                let fields_list ← xs.mapM (fun x =>
                                  match x with
                                  | .obj xk =>
                                      match jlookup xk "field" with
                                      | some fv => .ok fv
                                      | none => .error "KeyError: field"
                                  | _ => .error "TypeError: group by entry is not subscriptable")
                                .ok (dictSet dkvs0 "group_by_fields" (.arr fields_list))
                            | _ => .error "Group by fields need to list of dict"
                      match gbStep with
                      | .error e => (g, data, .error e)
                      | .ok dkvs =>
                          let data' := JVal.obj dkvs
                          let phase : Except String (String × String) := do
                            let fieldsv ←
                              match jlookup dkvs "fields" with
                              | none => .error "KeyError: fields"
                              | some fv => .ok fv
                            let fids ← pyIterate fieldsv
                            let tables ← fids.mapM (fun field_id =>
                              match klookup g.field_mapping field_id with
                              | some fd => .ok fd.table_name
                              | none => .error "KeyError: field_mapping")
                            let path_subset ← extractPathsSubset g (fuel+1) tables
                              (data'.getD "path_hints" (.obj []))
                            let join_tables ← createJoinPath path_subset (fuel+1)
                              g.base_table
                            let join_phrase ← generateLeftJoin g join_tables
                            let group_by_list :=
                              match jlookup dkvs "group_by_fields" with
                              | some (.arr l) => l
                              | _ => []
                            let group_by_phrase ← generateGroupBy g (fuel+1)
                              group_by_list (data'.getD "having" (.obj []))
                            .ok (join_phrase, group_by_phrase)
                          match phase with
                          | .error e => (g, data', .error e)
                          | .ok (join_phrase, group_by_phrase) =>
                              let aliasParamsE : Except String (List (JVal × JVal)) :=
                                match kwargs.alias_params with
                                | some ap => .ok ap
                                | none => do
                                    let sqs ← pyIterate (data'.getD "sub_queries" (.arr []))
                                    generateAliasParams sqs
                              match aliasParamsE with
                              | .error e => (g, data', .error e)
                              | .ok alias_params =>
                                  match pyIterate (data'.getD "sub_queries" (.arr [])) with
                                  | .error e => (g, data', .error e)
                                  | .ok sqs =>
                                      let subqRes := generateSubqueryLoop
                                        (generateSql fuel) alias_params g sqs []
                                      match subqRes.2 with
                                      | .error e => (subqRes.1, data', .error e)
                                      | .ok sub_query_phrase =>
                                          match generateSelectPhrase subqRes.1
                                              kwargs.select_fields with
                                          | .error e => (subqRes.1, data', .error e)
                                          | .ok select_phrase =>
                                              (subqRes.1, data',
                                                .ok ("SELECT " ++ select_phrase ++
                                                  " FROM " ++ base_table ++ " " ++
                                                  sub_query_phrase ++ " " ++
                                                  join_phrase ++ " WHERE " ++
                                                  where_phrase ++ " " ++
                                                  group_by_phrase))
      | _ => (g, data, .error "AttributeError: get")

/-! Concrete fixtures used by the theorems. -/

/-- Equality of `Except` results is decidable when both components are. -/
instance exceptDecEq {ε α : Type} [DecidableEq ε] [DecidableEq α] :
    DecidableEq (Except ε α) := fun a b =>
  match a, b with
  | .ok x, .ok y =>
      if h : x = y then .isTrue (by rw [h])
      else .isFalse (fun hc => h (Except.ok.inj hc))
  | .error x, .error y =>
      if h : x = y then .isTrue (by rw [h])
      else .isFalse (fun hc => h (Except.error.inj hc))
  | .ok _, .error _ => .isFalse (fun hc => Except.noConfusion hc)
  | .error _, .ok _ => .isFalse (fun hc => Except.noConfusion hc)

/-- Construction input of the spec's first scenario: fields
`1 ↦ (users, age, integer)` and `2 ↦ (users, name, string)`, no paths, no
custom methods, no subqueries, no variable templates. -/
def initUsers : InitData :=
  ⟨[(.int 1, "age", "users", "integer"), (.int 2, "name", "users", "string")],
   [], [], [], []⟩

/-- The registry `initUsers` constructs. -/
def gUsers : Gen :=
  ⟨"", [(.int 1, ⟨"age", "users", "integer"⟩),
        (.int 2, ⟨"name", "users", "string"⟩)],
   [], [], [], []⟩

/-- The entries of the first scenario's request dict. -/
def reqC1kvs : List (String × JVal) :=
  [("fields", .arr [.int 1]),
   ("where_data", .obj [("where", .obj
     [("field", .int 1), ("operator", .str "equals"),
      ("value", .str "30")])])]

/-- The first scenario's request: a single `equals` leaf on field 1 (the
engine requires the `fields` key, which lists the referenced field). -/
def reqC1 : JVal := .obj reqC1kvs

/-- A request whose `where_data` hides an `aggregate_lhs`-carrying leaf
inside the child list of an `and` node. -/
def reqAggInAnd : JVal :=
  .obj [("fields", .arr [.int 1]),
        ("where_data", .obj [("and", .arr [.obj [("where", .obj
          [("field", .int 1), ("operator", .str "equals"),
           ("value", .str "30"), ("aggregate_lhs", .str "MIN")])]])])]

/-- A `where` leaf carrying a non-empty `aggregate_lhs` directly. -/
def aggLeaf : JVal :=
  .obj [("field", .int 1), ("operator", .str "equals"),
        ("value", .str "30"), ("aggregate_lhs", .str "MIN")]

/-- A request whose `where_data` is the direct aggregate leaf. -/
def reqAggDirect : JVal :=
  .obj [("fields", .arr [.int 1]),
        ("where_data", .obj [("where", aggLeaf)])]

/-- A request whose `where_data` is an `and` node with no children. -/
def reqEmptyAnd : JVal :=
  .obj [("fields", .arr [.int 1]),
        ("where_data", .obj [("and", .arr [])])]

/-- Construction input with a duplicated field identifier. -/
def initDupField : InitData :=
  ⟨[(.int 1, "age", "users", "integer"),
    (.int 1, "name", "people", "string")],
   [], [], [], []⟩

/-- The entries of the request dict a non-SQL subquery stores: a field
list, a `where` leaf and a `group_by_fields` list of dicts. -/
def subBodyKvs : List (String × JVal) :=
  [("fields", .arr [.int 1]),
   ("where_data", .obj [("where", .obj
     [("field", .int 1), ("operator", .str "equals"),
      ("value", .str "30")])]),
   ("group_by_fields", .arr [.obj [("field", .int 1)]])]

/-- The stored request dict of the non-SQL subquery. -/
def subBody : JVal := .obj subBodyKvs

/-- Construction input with one field and one non-SQL subquery (id 10)
whose stored body is `subBody`. -/
def initSub : InitData :=
  ⟨[(.int 1, "age", "users", "integer")], [], [],
   [(.int 10, false, subBody, .obj [], .obj [])], []⟩

/-- The registry `initSub` constructs. -/
def gSub : Gen :=
  ⟨"", [(.int 1, ⟨"age", "users", "integer"⟩)], [], [],
   [(.int 10, ⟨subBody, .obj [], .obj [], false⟩)], []⟩

/-- A request that invokes subquery 10 under the alias `sq`. -/
def reqSub : JVal :=
  .obj [("fields", .arr [.int 1]),
        ("where_data", .obj [("where", .obj
          [("field", .int 1), ("operator", .str "equals"),
           ("value", .str "30")])]),
        ("sub_queries", .arr [.obj [("unique_id", .int 10),
          ("alias", .str "sq")]])]

/-- The subquery body after one compilation: its `group_by_fields` entry
has been rewritten in place to the bare field ids. -/
def subBodyMutated : JVal :=
  .obj (dictSet subBodyKvs "group_by_fields" (.arr [.int 1]))

/-- Construction input holding the custom method of the spec's sixth
scenario: id 7, template `foo({x})`, schema `x : integer`. -/
def initFoo : InitData :=
  ⟨[], [],
   [(.int 7, "foo({x})", .obj [("x", .obj [("data_type", .str "integer")])])],
   [], []⟩

/-- The registry `initFoo` constructs. -/
def gFoo : Gen :=
  ⟨"", [], [],
   [(.int 7, ⟨"foo({x})", .obj [("x", .obj [("data_type", .str "integer")])]⟩)],
   [], []⟩

/-- The sixth scenario's custom-method node: `x` supplied as `"42"`. -/
def dataFoo42 : JVal :=
  .obj [("template_id", .int 7),
        ("parameters", .obj [("x", .obj [("value", .str "42")])])]

/-- The custom-method node with `x` supplied as the falsy empty string. -/
def dataFooEmptyVal : JVal :=
  .obj [("template_id", .int 7),
        ("parameters", .obj [("x", .obj [("value", .str "")])])]

/-- The custom-method node with the undeclared extra parameter `y`. -/
def dataFooExtra : JVal :=
  .obj [("template_id", .int 7),
        ("parameters", .obj [("x", .obj [("value", .str "42")]),
                             ("y", .obj [("value", .str "1")])])]

/-- The custom-method node supplying none of the declared parameters. -/
def dataFooMissing : JVal :=
  .obj [("template_id", .int 7), ("parameters", .obj [])]

/-- The fragment each child of a compound node compiles to, one fuel level
down (exactly the call `_parse_conditions` makes per element); `none`
when any child fails. -/
def childFragments (g : Gen) (fuel : Nat) : List JVal → Option (List String)
  | [] => some []
  | e :: rest =>
      match condChildStep (condDispatch g fuel) e with
      | .ok r =>
          match childFragments g fuel rest with
          | some rs => some (r :: rs)
          | none => none
      | .error _ => none

/-- Child fragments each wrapped in parentheses and joined by the
separator; by construction a list of N fragments uses the separator
exactly N-1 times. -/
def joinFrags (sep : String) : List String → String
  | [] => ""
  | [r] => "(" ++ r ++ ")"
  | r :: rs => "(" ++ r ++ ")" ++ sep ++ joinFrags sep rs

/-- The tail the accumulator loop appends for each later child, spelled
exactly as `_parse_conditions` builds it. -/
def condTailJoin (condition : String) : List String → String
  | [] => ""
  | r :: rs =>
      (" " ++ condition ++ " (" ++ r ++ ")") ++ condTailJoin condition rs

/-- The three-leaf child list of the C5 witness. -/
def esC5 : List JVal :=
  [.obj [("where", .obj [("field", .int 1), ("operator", .str "equals"),
    ("value", .str "1")])],
   .obj [("where", .obj [("field", .int 1), ("operator", .str "equals"),
    ("value", .str "2")])],
   .obj [("where", .obj [("field", .int 1), ("operator", .str "equals"),
    ("value", .str "3")])]]

/-! Theorems. -/

/-- C1 (counterexample): with the registry of the first scenario and the
single `equals` leaf, `generate_sql` does not return the claimed string:
the claim (and the spec's scenario) shows two spaces between `FROM users`
and `WHERE`, while the emitter's format string leaves one separating space
each for the empty subquery phrase and the empty join phrase, giving
three. -/
theorem C1_counterexample :
    initGen initUsers = .ok gUsers ∧
    (generateSql 32 gUsers reqC1 "users" Kwargs.none).2.2 ≠
      .ok "SELECT COUNT(DISTINCT `users`.`id`) FROM users  WHERE `users`.`age` = 30 " :=
  ⟨rfl, by decide⟩

/-- C1 (amended): the same compilation returns exactly the default-count
query with the integer rendered unquoted and identifiers backtick-quoted,
but with three spaces between `FROM users` and `WHERE` (one separator each
for the empty subquery and join phrases) and one trailing space. -/
theorem C1_corrected :
    initGen initUsers = .ok gUsers ∧
    (generateSql 32 gUsers reqC1 "users" Kwargs.none).2.2 =
      .ok "SELECT COUNT(DISTINCT `users`.`id`) FROM users   WHERE `users`.`age` = 30 " :=
  ⟨rfl, by decide⟩

/-- C3 (counterexample): compiler state does not survive unchanged — the
constructed registry's `base_table` is the empty string, and after one
compilation against base table `users` the field holds `users`. -/
theorem C3_counterexample :
    gUsers.base_table = "" ∧
    (generateSql 32 gUsers reqC1 "users" Kwargs.none).1.base_table = "users" ∧
    (generateSql 32 gUsers reqC1 "users" Kwargs.none).1.base_table ≠
      gUsers.base_table :=
  ⟨rfl, rfl, by decide⟩

/-- `klookup` after `kdictSet` at the same (reflexive-scalar) key yields
the stored value. -/
theorem klookup_kdictSet_self {α : Type} (m : List (JVal × α)) (k : JVal)
    (v : α) (hk : pyEqScalar k k = true) :
    klookup (kdictSet m k v) k = some v := by
  induction m with
  | nil => simp [kdictSet, klookup, hk]
  | cons p rest ih =>
      obtain ⟨k', v'⟩ := p
      by_cases h : pyEqScalar k' k = true
      · simp [kdictSet, klookup, h]
      · simp [kdictSet, klookup, h, ih]

/-- Appending one field tuple folds into one dict update. -/
theorem parseFieldMapping_append_single
    (fm : List (JVal × String × String × String)) (i : JVal)
    (a b c : String) :
    parseFieldMapping (fm ++ [(i, a, b, c)]) =
      kdictSet (parseFieldMapping fm) i ⟨a, b, c⟩ := by
  simp [parseFieldMapping, List.foldl_append]

/-- C7 (counterexample): constructing the compiler from a field mapping in
which two entries share the identifier 1 succeeds, and the identifier
resolves to the later entry. -/
theorem C7_counterexample :
    (initGen initDupField).isOk = true ∧
    (match initGen initDupField with
     | .ok g => klookup g.field_mapping (.int 1)
     | .error _ => Option.none) = some ⟨"name", "people", "string"⟩ :=
  ⟨rfl, rfl⟩

/-- C7 (amended): field-id uniqueness is not validated — construction
succeeds for every field mapping (the other construction tables empty),
and `_parse_field_mapping` is a dict comprehension in which a repeated
identifier silently resolves to the last entry. -/
theorem C7_corrected :
    (∀ fm : List (JVal × String × String × String),
      (initGen ⟨fm, [], [], [], []⟩).isOk = true) ∧
    (∀ (fm : List (JVal × String × String × String)) (i : JVal)
        (a b c : String), pyEqScalar i i = true →
      klookup (parseFieldMapping (fm ++ [(i, a, b, c)])) i = some ⟨a, b, c⟩) := by
  refine ⟨fun fm => rfl, fun fm i a b c hk => ?_⟩
  rw [parseFieldMapping_append_single]
  exact klookup_kdictSet_self _ _ _ hk

/-- C7 (witness for the amended claim): the duplicated integer id 1 is a
reflexive scalar key and resolves to the appended entry. -/
theorem C7_corrected_witness :
    pyEqScalar (.int 1) (.int 1) = true ∧
    klookup (parseFieldMapping ([(.int 1, "age", "users", "integer")] ++
      [(.int 1, "name", "people", "string")])) (.int 1) =
      some ⟨"name", "people", "string"⟩ :=
  ⟨rfl, C7_corrected.2 [(.int 1, "age", "users", "integer")] (.int 1)
    "name" "people" "string" rfl⟩

/-- C8 (counterexample): a `DYNAMIC_DATE` value carrying all three of
operator, offset and unit but a falsy (empty) offset compiles to `NOW()`,
although the claim reserves `NOW()` for the case where none of the three
is provided. -/
theorem C8_counterexample :
    generateDynamicDate (.obj [("type", .str "DYNAMIC_DATE"),
      ("operator", .str "date_add"), ("offset", .str ""),
      ("unit", .str "DAY")]) (.str "date") = .ok "NOW()" := by
  decide

/-- C8 (amended): a `DYNAMIC_DATE` value compiles to `NOW()` when none of
(operator, offset, unit) is present, and also when all three are present
but the offset is falsy; with a truthy offset it compiles to
`DATE_ADD/DATE_SUB(NOW(), INTERVAL <offset> <unit>)` per the operator,
compilation fails when the unit is outside DAY/WEEK/MONTH/YEAR or the
offset does not parse as an integer, and a value providing some but not
all of the three keys fails (the re-raised `KeyError`) rather than
compiling to `NOW()`. -/
theorem C8_corrected :
    (∀ (kvs : List (String × JVal)) (dt : JVal),
      jlookup kvs "operator" = Option.none →
      jlookup kvs "offset" = Option.none →
      jlookup kvs "unit" = Option.none →
      generateDynamicDate (.obj kvs) dt = .ok "NOW()") ∧
    (∀ (kvs : List (String × JVal)) (dt : JVal) (ops : String)
        (offv unitv : JVal),
      jlookup kvs "operator" = some (.str ops) →
      jlookup kvs "offset" = some offv →
      jlookup kvs "unit" = some unitv →
      offv.truthy = false →
      generateDynamicDate (.obj kvs) dt = .ok "NOW()") ∧
    (∀ (kvs : List (String × JVal)) (dt : JVal) (ops us : String)
        (offv : JVal) (sql_operator : String) (n : Int),
      jlookup kvs "operator" = some (.str ops) →
      jlookup kvs "offset" = some offv →
      jlookup kvs "unit" = some (.str us) →
      offv.truthy = true → (JVal.str ops).truthy = true →
      (JVal.str us).truthy = true →
      DYNAMIC_DATE_OPERATORS_get (pyLower ops) = some sql_operator →
      pyIntCoerce offv = .ok n →
      DYNAMIC_DATE_UNITS.contains (pyUpper (sqlInjectionProof us)) = true →
      generateDynamicDate (.obj kvs) dt =
        .ok (sql_operator ++ "(NOW(), INTERVAL " ++ toString n ++ " " ++
              pyUpper (sqlInjectionProof us) ++ ")")) ∧
    (∀ (kvs : List (String × JVal)) (dt : JVal) (ops us : String)
        (offv : JVal) (sql_operator : String) (n : Int),
      jlookup kvs "operator" = some (.str ops) →
      jlookup kvs "offset" = some offv →
      jlookup kvs "unit" = some (.str us) →
      offv.truthy = true → (JVal.str ops).truthy = true →
      (JVal.str us).truthy = true →
      DYNAMIC_DATE_OPERATORS_get (pyLower ops) = some sql_operator →
      pyIntCoerce offv = .ok n →
      DYNAMIC_DATE_UNITS.contains (pyUpper (sqlInjectionProof us)) = false →
      generateDynamicDate (.obj kvs) dt =
        .error "Unsupported dynamic date units") ∧
    (∀ (kvs : List (String × JVal)) (dt : JVal) (ops us : String)
        (offv : JVal) (sql_operator : String),
      jlookup kvs "operator" = some (.str ops) →
      jlookup kvs "offset" = some offv →
      jlookup kvs "unit" = some (.str us) →
      offv.truthy = true → (JVal.str ops).truthy = true →
      (JVal.str us).truthy = true →
      DYNAMIC_DATE_OPERATORS_get (pyLower ops) = some sql_operator →
      pyIntCoerce offv = .valueError →
      generateDynamicDate (.obj kvs) dt = .error "Invalid value for offset") ∧
    (∀ (kvs : List (String × JVal)) (dt : JVal),
      (jlookup kvs "operator" = Option.none ∨
        jlookup kvs "offset" = Option.none ∨
        jlookup kvs "unit" = Option.none) →
      ¬(jlookup kvs "operator" = Option.none ∧
        jlookup kvs "offset" = Option.none ∧
        jlookup kvs "unit" = Option.none) →
      (generateDynamicDate (.obj kvs) dt).isOk = false) := by
  refine ⟨?_, ?_, ?_, ?_, ?_, ?_⟩
  · intro kvs dt h1 h2 h3
    simp [generateDynamicDate, getDynamicDateValidatedData, bind, Except.bind,
      h1, h2, h3]
  · intro kvs dt ops offv unitv h1 h2 h3 h4
    simp [generateDynamicDate, getDynamicDateValidatedData, bind, Except.bind,
      h1, h2, h3, h4]
  · intro kvs dt ops us offv sql_operator n h1 h2 h3 h4 h5 h6 h7 h8 h9
    simp [generateDynamicDate, getDynamicDateValidatedData, bind, Except.bind,
      h1, h2, h3, h4, h5, h6, h7, h8, h9]
    simpa using h9
  · intro kvs dt ops us offv sql_operator n h1 h2 h3 h4 h5 h6 h7 h8 h9
    simp [generateDynamicDate, getDynamicDateValidatedData, bind, Except.bind,
      h1, h2, h3, h4, h5, h6, h7, h8, h9]
    simpa using h9
  · intro kvs dt ops us offv sql_operator h1 h2 h3 h4 h5 h6 h7 h8
    simp [generateDynamicDate, getDynamicDateValidatedData, bind, Except.bind,
      h1, h2, h3, h4, h5, h6, h7, h8]
  · intro kvs dt hmiss hnall
    cases ho : jlookup kvs "operator" with
    | none =>
        cases hf : jlookup kvs "offset" with
        | none =>
            cases hu : jlookup kvs "unit" with
            | none => exact absurd ⟨ho, hf, hu⟩ hnall
            | some unitv =>
                simp [generateDynamicDate, getDynamicDateValidatedData,
                  ho, hf, hu, bind, Except.bind, Except.isOk, Except.toBool]
        | some offv =>
            simp [generateDynamicDate, getDynamicDateValidatedData,
              ho, hf, bind, Except.bind, Except.isOk, Except.toBool]
    | some opv =>
        cases opv with
        | str ops =>
            cases hf : jlookup kvs "offset" with
            | none =>
                simp [generateDynamicDate, getDynamicDateValidatedData,
                  ho, hf, bind, Except.bind, Except.isOk, Except.toBool]
            | some offv =>
                cases hu : jlookup kvs "unit" with
                | none =>
                    simp [generateDynamicDate, getDynamicDateValidatedData,
                      ho, hf, hu, bind, Except.bind, Except.isOk,
                      Except.toBool]
                | some unitv =>
                    rcases hmiss with h | h | h <;> simp_all
        | null =>
            simp [generateDynamicDate, getDynamicDateValidatedData, ho,
              bind, Except.bind, Except.isOk, Except.toBool]
        | bool b =>
            simp [generateDynamicDate, getDynamicDateValidatedData, ho,
              bind, Except.bind, Except.isOk, Except.toBool]
        | int n =>
            simp [generateDynamicDate, getDynamicDateValidatedData, ho,
              bind, Except.bind, Except.isOk, Except.toBool]
        | arr xs =>
            simp [generateDynamicDate, getDynamicDateValidatedData, ho,
              bind, Except.bind, Except.isOk, Except.toBool]
        | obj okvs =>
            simp [generateDynamicDate, getDynamicDateValidatedData, ho,
              bind, Except.bind, Except.isOk, Except.toBool]

/-- C8 (witness for the amended claim): all keys present with offset `"3"`
and unit `DAY` compiles to `DATE_ADD(NOW(), INTERVAL 3 DAY)`. -/
theorem C8_corrected_witness :
    (jlookup [("type", JVal.str "DYNAMIC_DATE"),
      ("operator", JVal.str "date_add"), ("offset", JVal.str "3"),
      ("unit", JVal.str "DAY")] "operator" = some (.str "date_add") ∧
     pyIntCoerce (.str "3") = .ok 3 ∧
     DYNAMIC_DATE_UNITS.contains (pyUpper (sqlInjectionProof "DAY")) = true) ∧
    generateDynamicDate (.obj [("type", .str "DYNAMIC_DATE"),
      ("operator", .str "date_add"), ("offset", .str "3"),
      ("unit", .str "DAY")]) (.str "date") =
      .ok ("DATE_ADD" ++ "(NOW(), INTERVAL " ++ toString (3 : Int) ++ " " ++
            pyUpper (sqlInjectionProof "DAY") ++ ")") :=
  ⟨⟨rfl, by decide, by decide⟩,
   C8_corrected.2.2.1 _ (.str "date") "date_add" "DAY" (.str "3") "DATE_ADD" 3
     rfl rfl rfl (by decide) (by decide) (by decide) rfl (by decide) (by decide)⟩

/-- C9 (counterexample): an `and` node with an empty child sequence
compiles to the fragment `()` without error, and a whole request built
around it compiles to a query whose `WHERE` clause is `()`. -/
theorem C9_counterexample :
    condDispatch gUsers 32 AND_CONDITION (.arr []) = .ok "()" ∧
    (generateSql 32 gUsers reqEmptyAnd "users" Kwargs.none).2.2 =
      .ok "SELECT COUNT(DISTINCT `users`.`id`) FROM users   WHERE () " := by
  exact ⟨by decide, by decide⟩

/-- C9 (amended): an `and`, `or` or `not` node with an empty child
sequence compiles, for any registry and fuel, to the fragment `()` rather
than failing. -/
theorem C9_corrected (g : Gen) (fuel : Nat) (condition : String)
    (h : condition = AND_CONDITION ∨ condition = OR_CONDITION ∨
      condition = NOT_CONDITION) :
    condDispatch g (fuel+1) condition (.arr []) = .ok "()" := by
  rcases h with h | h | h <;> subst h <;> rfl

/-- C9 (witness): the empty `and` node of the counterexample, through the
amended theorem. -/
theorem C9_corrected_witness :
    (AND_CONDITION = AND_CONDITION ∨ AND_CONDITION = OR_CONDITION ∨
      AND_CONDITION = NOT_CONDITION) ∧
    condDispatch gUsers 32 AND_CONDITION (.arr []) = .ok "()" :=
  ⟨Or.inl rfl, C9_corrected gUsers 31 AND_CONDITION (Or.inl rfl)⟩

/-- C10 (confirmed): a parameter whose supplied dict has a missing or
falsy `value` is processed to `None` with no type check and no error; it
still counts as supplied, so the interpolation embeds the literal text
`None` — concretely, `foo({x})` invoked with `x = ""` yields
`foo(None)`. -/
theorem C10_confirmed :
    (∀ (g : Gen) (dt : JVal) (pkvs : List (String × JVal)) (n : Nat),
      pyLen dt = .ok n → n ≠ 0 →
      ((jlookup pkvs "value").getD .null).truthy = false →
      processParameter g dt (.obj pkvs) = .ok .pnone) ∧
    parseCustomMethodCondition gFoo dataFooEmptyVal = .ok "foo(None)" := by
  refine ⟨fun g dt pkvs n h1 h2 h3 => ?_, by decide⟩
  simp [processParameter, bind, Except.bind, h1, h2, h3]

/-- C10 (witness): the integer-typed parameter supplied with the empty
string is processed to `None` through the theorem's first part. -/
theorem C10_confirmed_witness :
    (pyLen (.str "integer") = .ok 7 ∧ (7 : Nat) ≠ 0 ∧
      ((jlookup [("value", JVal.str "")] "value").getD .null).truthy = false) ∧
    processParameter gFoo (.str "integer") (.obj [("value", .str "")]) =
      .ok .pnone :=
  ⟨⟨rfl, by decide, rfl⟩,
   C10_confirmed.1 gFoo (.str "integer") [("value", .str "")] 7 rfl
     (by decide) rfl⟩

/-- A where value rejected by `validate_where_data`'s per-condition loop
when it is a dict whose `aggregate_lhs` is not the empty string causes the
whole check to fail. -/
theorem checkWhereConds_mem_error (l : List JVal)
    (ckvs : List (String × JVal)) (hm : JVal.obj ckvs ∈ l)
    (hb : pyEqScalar ((jlookup ckvs "aggregate_lhs").getD (.str "")) (.str "")
      = false) :
    (checkWhereConds l).isOk = false := by
  induction l with
  | nil => cases hm
  | cons c rest ih =>
      rcases List.mem_cons.mp hm with h | h
      · subst h
        simp [checkWhereConds, hb, Except.isOk, Except.toBool]
      · cases c with
        | obj xkvs =>
            by_cases hp : pyEqScalar
              ((jlookup xkvs "aggregate_lhs").getD (.str "")) (.str "") = true
            · simp [checkWhereConds, hp, ih h]
            · simp only [Bool.not_eq_true] at hp
              simp [checkWhereConds, hp, Except.isOk, Except.toBool]
        | null => simp [checkWhereConds, Except.isOk, Except.toBool]
        | bool b => simp [checkWhereConds, Except.isOk, Except.toBool]
        | int n => simp [checkWhereConds, Except.isOk, Except.toBool]
        | str s => simp [checkWhereConds, Except.isOk, Except.toBool]
        | arr xs => simp [checkWhereConds, Except.isOk, Except.toBool]

/-- When the nested-dict extraction of a where_data value reaches a dict
leaf with a non-empty `aggregate_lhs`, `validate_where_data` fails. -/
theorem validateWhereData_mem_error (fuel : Nat) (where_data : JVal)
    (ckvs : List (String × JVal))
    (hm : JVal.obj ckvs ∈ extractKeyFromNestedDict WHERE_CONDITION fuel
      where_data)
    (hb : pyEqScalar ((jlookup ckvs "aggregate_lhs").getD (.str "")) (.str "")
      = false) :
    (validateWhereData fuel where_data).isOk = false := by
  have hl := checkWhereConds_mem_error _ ckvs hm hb
  cases where_data with
  | obj kvs =>
      cases kvs with
      | nil =>
          cases fuel with
          | zero => simp [extractKeyFromNestedDict] at hm
          | succ m => simp [extractKeyFromNestedDict] at hm
      | cons p rest => simpa [validateWhereData] using hl
  | null => cases fuel with
      | zero => simp [extractKeyFromNestedDict] at hm
      | succ m => simp [extractKeyFromNestedDict] at hm
  | bool b => cases fuel with
      | zero => simp [extractKeyFromNestedDict] at hm
      | succ m => simp [extractKeyFromNestedDict] at hm
  | int n => cases fuel with
      | zero => simp [extractKeyFromNestedDict] at hm
      | succ m => simp [extractKeyFromNestedDict] at hm
  | str s => cases fuel with
      | zero => simp [extractKeyFromNestedDict] at hm
      | succ m => simp [extractKeyFromNestedDict] at hm
  | arr xs => cases fuel with
      | zero => simp [extractKeyFromNestedDict] at hm
      | succ m => simp [extractKeyFromNestedDict] at hm

/-- C2 (counterexample): an `aggregate_lhs`-carrying leaf hidden inside an
`and` node's child list passes validation and the whole request compiles
to a query whose `WHERE` clause applies `MIN`, instead of failing. -/
theorem C2_counterexample :
    (generateSql 32 gUsers reqAggInAnd "users" Kwargs.none).2.2 =
      .ok "SELECT COUNT(DISTINCT `users`.`id`) FROM users   WHERE ((MIN(`users`.`age`) = 30)) " := by
  decide

/-- C2 (amended): the aggregate check reaches only leaves connected to the
root through dict nesting: for every request in which the nested-dict
extraction of `where_data` (which does not descend into the child lists of
`and`/`or`/`not` nodes) reaches a `where` leaf whose `aggregate_lhs`
differs from the empty string, `generate_sql` fails and returns no SQL
string. -/
theorem C2_corrected (fuel : Nat) (g : Gen) (data : JVal)
    (base_table : String) (kw : Kwargs) (ckvs : List (String × JVal))
    (hm : JVal.obj ckvs ∈ extractKeyFromNestedDict WHERE_CONDITION fuel
      (data.getD "where_data" (.obj [])))
    (hb : pyEqScalar ((jlookup ckvs "aggregate_lhs").getD (.str "")) (.str "")
      = false) :
    ((generateSql fuel g data base_table kw).2.2).isOk = false := by
  cases fuel with
  | zero => rfl
  | succ m =>
      cases data with
      | obj dkvs =>
          have hv := validateWhereData_mem_error (m+1)
            ((JVal.obj dkvs).getD "where_data" (.obj [])) ckvs hm hb
          cases hve : validateWhereData (m+1)
              ((JVal.obj dkvs).getD "where_data" (.obj [])) with
          | error e => simp [generateSql, hve, Except.isOk, Except.toBool]
          | ok u => rw [hve] at hv; simp [Except.isOk, Except.toBool] at hv
      | null => rfl
      | bool b => rfl
      | int n => rfl
      | str s => rfl
      | arr xs => rfl

/-- C2 (witness): the direct aggregate leaf is reached by the extraction
and the compilation fails. -/
theorem C2_corrected_witness :
    (JVal.obj [("field", .int 1), ("operator", .str "equals"),
        ("value", .str "30"), ("aggregate_lhs", .str "MIN")] ∈
      extractKeyFromNestedDict WHERE_CONDITION 32
        (reqAggDirect.getD "where_data" (.obj []))) ∧
    ((generateSql 32 gUsers reqAggDirect "users" Kwargs.none).2.2).isOk =
      false := by
  have hm : JVal.obj [("field", .int 1), ("operator", .str "equals"),
      ("value", .str "30"), ("aggregate_lhs", .str "MIN")] ∈
      extractKeyFromNestedDict WHERE_CONDITION 32
        (reqAggDirect.getD "where_data" (.obj [])) :=
    List.mem_singleton.mpr rfl
  exact ⟨hm, C2_corrected 32 gUsers reqAggDirect "users" Kwargs.none _ hm
    (by decide)⟩

/-- `{g with base_table := g.base_table}` is `g` (structure eta). -/
theorem gen_base_eta (g : Gen) : { g with base_table := g.base_table } = g :=
  rfl

/-- The subquery loop never writes the field-mapping registry, given that
the recursive compile never does. -/
theorem generateSubqueryLoop_fields
    (recur : Gen → JVal → String → Kwargs → Gen × JVal × Except String String)
    (hrec : ∀ g d b kw, (recur g d b kw).1.field_mapping = g.field_mapping)
    (ap : List (JVal × JVal)) :
    ∀ (l : List JVal) (g : Gen) (acc : List String),
      (generateSubqueryLoop recur ap g l acc).1.field_mapping =
        g.field_mapping := by
  intro l
  induction l with
  | nil => intro g acc; rfl
  | cons sq rest ih =>
      intro g acc
      simp only [generateSubqueryLoop]
      repeat' split
      all_goals try rfl
      all_goals try exact ih _ _
      all_goals try exact hrec g _ _ _
      all_goals (rw [ih]; try exact hrec g _ _ _)

/-- The subquery loop never writes the path-mapping registry, given that
the recursive compile never does. -/
theorem generateSubqueryLoop_paths
    (recur : Gen → JVal → String → Kwargs → Gen × JVal × Except String String)
    (hrec : ∀ g d b kw, (recur g d b kw).1.path_mapping = g.path_mapping)
    (ap : List (JVal × JVal)) :
    ∀ (l : List JVal) (g : Gen) (acc : List String),
      (generateSubqueryLoop recur ap g l acc).1.path_mapping =
        g.path_mapping := by
  intro l
  induction l with
  | nil => intro g acc; rfl
  | cons sq rest ih =>
      intro g acc
      simp only [generateSubqueryLoop]
      repeat' split
      all_goals try rfl
      all_goals try exact ih _ _
      all_goals try exact hrec g _ _ _
      all_goals (rw [ih]; try exact hrec g _ _ _)

/-- The subquery loop never writes the custom-method registry, given that
the recursive compile never does. -/
theorem generateSubqueryLoop_methods
    (recur : Gen → JVal → String → Kwargs → Gen × JVal × Except String String)
    (hrec : ∀ g d b kw, (recur g d b kw).1.custom_methods = g.custom_methods)
    (ap : List (JVal × JVal)) :
    ∀ (l : List JVal) (g : Gen) (acc : List String),
      (generateSubqueryLoop recur ap g l acc).1.custom_methods =
        g.custom_methods := by
  intro l
  induction l with
  | nil => intro g acc; rfl
  | cons sq rest ih =>
      intro g acc
      simp only [generateSubqueryLoop]
      repeat' split
      all_goals try rfl
      all_goals try exact ih _ _
      all_goals try exact hrec g _ _ _
      all_goals (rw [ih]; try exact hrec g _ _ _)

/-- The subquery loop never writes the variable-template registry, given
that the recursive compile never does. -/
theorem generateSubqueryLoop_vartpls
    (recur : Gen → JVal → String → Kwargs → Gen × JVal × Except String String)
    (hrec : ∀ g d b kw,
      (recur g d b kw).1.variable_templates = g.variable_templates)
    (ap : List (JVal × JVal)) :
    ∀ (l : List JVal) (g : Gen) (acc : List String),
      (generateSubqueryLoop recur ap g l acc).1.variable_templates =
        g.variable_templates := by
  intro l
  induction l with
  | nil => intro g acc; rfl
  | cons sq rest ih =>
      intro g acc
      simp only [generateSubqueryLoop]
      repeat' split
      all_goals try rfl
      all_goals try exact ih _ _
      all_goals try exact hrec g _ _ _
      all_goals (rw [ih]; try exact hrec g _ _ _)

/-- The subquery loop leaves `base_table` alone, given that the recursive
compile leaves it alone when passed the current value. -/
theorem generateSubqueryLoop_base
    (recur : Gen → JVal → String → Kwargs → Gen × JVal × Except String String)
    (hrec : ∀ g d kw,
      (recur g d g.base_table kw).1.base_table = g.base_table)
    (ap : List (JVal × JVal)) :
    ∀ (l : List JVal) (g : Gen) (acc : List String),
      (generateSubqueryLoop recur ap g l acc).1.base_table =
        g.base_table := by
  intro l
  induction l with
  | nil => intro g acc; rfl
  | cons sq rest ih =>
      intro g acc
      simp only [generateSubqueryLoop]
      repeat' split
      all_goals try rfl
      all_goals try exact ih _ _
      all_goals try exact hrec g _ _
      all_goals (rw [ih]; try exact hrec g _ _)

/-- `generate_sql` never writes the field-mapping registry. -/
theorem generateSql_fields : ∀ (fuel : Nat) (g : Gen) (d : JVal) (b : String)
    (kw : Kwargs),
    (generateSql fuel g d b kw).1.field_mapping = g.field_mapping := by
  intro fuel
  induction fuel with
  | zero => intro g d b kw; rfl
  | succ m ih =>
      intro g d b kw
      simp only [generateSql]
      repeat' split
      all_goals try rfl
      all_goals
        (rw [generateSubqueryLoop_fields (generateSql m)
          (fun g' d' b' kw' => ih g' d' b' kw')]; try rfl)

/-- `generate_sql` never writes the path-mapping registry. -/
theorem generateSql_paths : ∀ (fuel : Nat) (g : Gen) (d : JVal) (b : String)
    (kw : Kwargs),
    (generateSql fuel g d b kw).1.path_mapping = g.path_mapping := by
  intro fuel
  induction fuel with
  | zero => intro g d b kw; rfl
  | succ m ih =>
      intro g d b kw
      simp only [generateSql]
      repeat' split
      all_goals try rfl
      all_goals
        (rw [generateSubqueryLoop_paths (generateSql m)
          (fun g' d' b' kw' => ih g' d' b' kw')]; try rfl)

/-- `generate_sql` never writes the custom-method registry. -/
theorem generateSql_methods : ∀ (fuel : Nat) (g : Gen) (d : JVal) (b : String)
    (kw : Kwargs),
    (generateSql fuel g d b kw).1.custom_methods = g.custom_methods := by
  intro fuel
  induction fuel with
  | zero => intro g d b kw; rfl
  | succ m ih =>
      intro g d b kw
      simp only [generateSql]
      repeat' split
      all_goals try rfl
      all_goals
        (rw [generateSubqueryLoop_methods (generateSql m)
          (fun g' d' b' kw' => ih g' d' b' kw')]; try rfl)

/-- `generate_sql` never writes the variable-template registry. -/
theorem generateSql_vartpls : ∀ (fuel : Nat) (g : Gen) (d : JVal) (b : String)
    (kw : Kwargs),
    (generateSql fuel g d b kw).1.variable_templates =
      g.variable_templates := by
  intro fuel
  induction fuel with
  | zero => intro g d b kw; rfl
  | succ m ih =>
      intro g d b kw
      simp only [generateSql]
      repeat' split
      all_goals try rfl
      all_goals
        (rw [generateSubqueryLoop_vartpls (generateSql m)
          (fun g' d' b' kw' => ih g' d' b' kw')]; try rfl)

/-- After a (non-fuel-exhausted) call, `base_table` holds the call's
base-table argument. -/
theorem generateSql_base : ∀ (fuel : Nat) (g : Gen) (d : JVal) (b : String)
    (kw : Kwargs), (generateSql fuel g d b kw).1.base_table =
      if fuel = 0 then g.base_table else b := by
  intro fuel
  induction fuel with
  | zero => intro g d b kw; rfl
  | succ m ih =>
      intro g d b kw
      have hrec : ∀ (g' : Gen) (d' : JVal) (kw' : Kwargs),
          (generateSql m g' d' g'.base_table kw').1.base_table =
            g'.base_table := by
        intro g' d' kw'
        rw [ih]
        split <;> rfl
      simp only [Nat.succ_ne_zero, if_false]
      simp only [generateSql]
      repeat' split
      all_goals try rfl
      all_goals
        (rw [generateSubqueryLoop_base (generateSql m) hrec]; try rfl)

/-- A request dict with no `group_by_fields` key is returned unchanged. -/
theorem generateSql_request_preserved (fuel : Nat) (g : Gen)
    (dkvs : List (String × JVal)) (b : String) (kw : Kwargs)
    (h : jlookup dkvs "group_by_fields" = Option.none) :
    (generateSql (fuel+1) g (.obj dkvs) b kw).2.1 = .obj dkvs := by
  simp only [generateSql, h]
  repeat' split
  all_goals rfl

/-- C3 (amended): the construction-time registries other than the
subquery mapping are never written — after any call the field, path,
custom-method and variable-template mappings are those of the input
state — `base_table` is overwritten with the call's argument (the
counterexample shows the pre-call value does not survive), the output does
not depend on the pre-call `base_table`, and a request dict with no
`group_by_fields` key is returned unchanged.  But state written during one
compilation survives into the next: a non-SQL subquery's stored request
dict is mutated through aliasing by the recursive call's
`group_by_fields` rewrite, so compiling `reqSub` against `gSub` succeeds
and leaves the bare field ids in the registry's stored body, and an
identical second compilation from the returned state fails with the
`TypeError` the rewrite then raises — two compilations of the same request
do not always yield the same string. -/
theorem C3_corrected :
    (∀ (fuel : Nat) (g : Gen) (d : JVal) (b bt' : String) (kw : Kwargs),
      generateSql (fuel+1) { g with base_table := bt' } d b kw =
        generateSql (fuel+1) g d b kw) ∧
    (∀ (fuel : Nat) (g : Gen) (d : JVal) (b : String) (kw : Kwargs),
      (generateSql fuel g d b kw).1.field_mapping = g.field_mapping ∧
      (generateSql fuel g d b kw).1.path_mapping = g.path_mapping ∧
      (generateSql fuel g d b kw).1.custom_methods = g.custom_methods ∧
      (generateSql fuel g d b kw).1.variable_templates =
        g.variable_templates) ∧
    (∀ (fuel : Nat) (g : Gen) (d : JVal) (b : String) (kw : Kwargs),
      (generateSql (fuel+1) g d b kw).1.base_table = b) ∧
    (∀ (fuel : Nat) (g : Gen) (dkvs : List (String × JVal)) (b : String)
        (kw : Kwargs), jlookup dkvs "group_by_fields" = Option.none →
      (generateSql (fuel+1) g (.obj dkvs) b kw).2.1 = .obj dkvs) ∧
    ((generateSql 32 gSub reqSub "users" Kwargs.none).2.2.isOk = true ∧
     klookup (generateSql 32 gSub reqSub "users" Kwargs.none).1.subquery_mapping
         (.int 10) = some ⟨subBodyMutated, .obj [], .obj [], false⟩ ∧
     (generateSql 32 (generateSql 32 gSub reqSub "users" Kwargs.none).1
         reqSub "users" Kwargs.none).2.2 =
       .error "TypeError: group by entry is not subscriptable") := by
  refine ⟨fun _ _ _ _ _ _ => rfl,
    fun fuel g d b kw => ⟨generateSql_fields fuel g d b kw,
      generateSql_paths fuel g d b kw, generateSql_methods fuel g d b kw,
      generateSql_vartpls fuel g d b kw⟩,
    ?_, generateSql_request_preserved, by decide, rfl, by decide⟩
  intro fuel g d b kw
  rw [generateSql_base]
  simp

/-- C3 (witness for the amended claim): the first scenario's request has
no `group_by_fields` key and is returned unchanged. -/
theorem C3_corrected_witness :
    jlookup reqC1kvs "group_by_fields" = Option.none ∧
    (generateSql 32 gUsers (.obj reqC1kvs) "users" Kwargs.none).2.1 =
      .obj reqC1kvs :=
  ⟨rfl, C3_corrected.2.2.2.1 31 gUsers reqC1kvs "users" Kwargs.none rfl⟩

/-- A string append is empty only when both parts are. -/
theorem append_ne_empty_left (a b : String) (ha : a ≠ "") : a ++ b ≠ "" := by
  intro hc
  apply ha
  have h2 : a.data ++ b.data = [] := by
    have h3 := congrArg String.data hc
    simpa [String.data_append] using h3
  exact String.ext (List.append_eq_nil.mp h2).1

/-- The escape routine distributes over append. -/
theorem sqlInjectionProof_append (a b : String) :
    sqlInjectionProof (a ++ b) =
      sqlInjectionProof a ++ sqlInjectionProof b := by
  have hfold : ∀ (l : List String) (x : String),
      l.foldl (fun r s => r ++ s) x = x ++ l.foldl (fun r s => r ++ s) "" := by
    intro l
    induction l with
    | nil => intro x; simp [String.append_empty]
    | cons y ys ih =>
        intro x
        rw [List.foldl_cons, List.foldl_cons, ih (x ++ y), ih ("" ++ y)]
        simp [String.append_assoc, String.empty_append]
  have hjoin : ∀ l1 l2 : List String,
      String.join (l1 ++ l2) = String.join l1 ++ String.join l2 := by
    intro l1 l2
    induction l1 with
    | nil => simp [String.join, String.empty_append]
    | cons x xs ih =>
        simp only [String.join, List.cons_append, List.foldl_cons] at *
        rw [hfold (xs ++ l2) ("" ++ x), hfold xs ("" ++ x)]
        simp [String.append_assoc, ih]
  have hdata : (a ++ b).toList = a.toList ++ b.toList := by
    simp [String.toList, String.data_append]
  simp [sqlInjectionProof, hdata, List.map_append, hjoin]

/-- A string ending in the two wildcard characters is truthy. -/
theorem truthy_pct_right (v : String) :
    (JVal.str (v ++ "%%")).truthy = true := by
  have h : (v ++ "%%").toList = v.toList ++ ['%', '%'] := by
    simp [String.toList, String.data_append]
  simp only [JVal.truthy, h]
  cases v.toList <;> simp [List.isEmpty]

/-- A string starting with the two wildcard characters is truthy. -/
theorem truthy_pct_left (v : String) :
    (JVal.str ("%%" ++ v)).truthy = true := by
  have h : ("%%" ++ v).toList = '%' :: '%' :: v.toList := by
    simp [String.toList, String.data_append]
  simp [JVal.truthy, h, List.isEmpty]

/-- A doubly wildcarded string is truthy. -/
theorem truthy_pct_both (v : String) :
    (JVal.str ("%%" ++ v ++ "%%")).truthy = true := by
  have h : ("%%" ++ v ++ "%%").toList = '%' :: '%' :: (v.toList ++ ['%', '%']) := by
    simp [String.toList, String.data_append]
  simp [JVal.truthy, h, List.isEmpty]

/-- Rendering a truthy plain string of a string-typed field escapes and
single-quotes it. -/
theorem getSqlValue_string (g : Gen) (s : String)
    (ht : (JVal.str s).truthy = true) :
    getSqlValue g (.str s) (.str STRING) =
      .ok ("'" ++ sqlInjectionProof s ++ "'") := by
  simp +decide [getSqlValue, validateSqlValues, sanitizeValue,
    convertValuesOne, dtEq, dtIn, pyEqScalar, ht, bind, Except.bind, pyStr,
    STRING, INTEGER, DATE, DATE_TIME, CHOICE, MULTICHOICE,
    CONVERSION_REQUIRED]

/-- C4 (counterexample): `has_substring` on the string field `name` with
value `a` yields `LIKE '%%a%%'` — two percent signs on each side (Python's
`str.format` leaves `%%` untouched), not the single percent sign the claim
states. -/
theorem C4_counterexample :
    generateWherePhrase gUsers (.obj [("field", .int 2),
      ("operator", .str "has_substring"), ("value", .str "a")]) =
      .ok "`users`.`name` LIKE '%%a%%'" ∧
    generateWherePhrase gUsers (.obj [("field", .int 2),
      ("operator", .str "has_substring"), ("value", .str "a")]) ≠
      .ok "`users`.`name` LIKE '%a%'" :=
  ⟨by decide, by decide⟩

/-- C4 (amended): for every string-typed field, `starts_with`,
`ends_with` and `has_substring` compile to `LIKE` with the value wrapped
as `v%%`, `%%v` and `%%v%%` — two percent signs on each wildcarded side
(the `%%` of the format template is literal) — around the escaped,
single-quoted value. -/
theorem C4_corrected :
    (∀ (g : Gen) (fid : JVal) (fname tbl v : String),
      klookup g.field_mapping fid = some ⟨fname, tbl, STRING⟩ →
      generateWherePhrase g (.obj [("field", fid),
        ("operator", .str "starts_with"), ("value", .str v)]) =
        .ok ("`" ++ tbl ++ "`.`" ++ fname ++ "`" ++ " " ++ "LIKE" ++ " " ++
              ("'" ++ (sqlInjectionProof v ++ "%%") ++ "'"))) ∧
    (∀ (g : Gen) (fid : JVal) (fname tbl v : String),
      klookup g.field_mapping fid = some ⟨fname, tbl, STRING⟩ →
      generateWherePhrase g (.obj [("field", fid),
        ("operator", .str "ends_with"), ("value", .str v)]) =
        .ok ("`" ++ tbl ++ "`.`" ++ fname ++ "`" ++ " " ++ "LIKE" ++ " " ++
              ("'" ++ ("%%" ++ sqlInjectionProof v) ++ "'"))) ∧
    (∀ (g : Gen) (fid : JVal) (fname tbl v : String),
      klookup g.field_mapping fid = some ⟨fname, tbl, STRING⟩ →
      generateWherePhrase g (.obj [("field", fid),
        ("operator", .str "has_substring"), ("value", .str v)]) =
        .ok ("`" ++ tbl ++ "`.`" ++ fname ++ "`" ++ " " ++ "LIKE" ++ " " ++
              ("'" ++ ("%%" ++ sqlInjectionProof v ++ "%%") ++ "'"))) := by
  refine ⟨?_, ?_, ?_⟩
  · intro g fid fname tbl v h
    have hq := getSqlValue_string g (v ++ "%%") (truthy_pct_right v)
    simp only [STRING] at hq
    have hn : getSqlValue g JVal.null (.str "string") = .ok "'None'" := rfl
    have hesc : sqlInjectionProof (v ++ "%%") = sqlInjectionProof v ++ "%%" := by
      rw [sqlInjectionProof_append]; rfl
    simp +decide [generateWherePhrase, getValidatedData, wherePhraseCore,
      jlookup, h, hq, hn, hesc, dtEq, dtIn, pyEqScalar, pyStr, pyLower,
      VALUE_OPERATORS_get, bind, Except.bind, LIKE_OPERATORS, STARTS_WITH,
      ENDS_WITH, HAS_SUBSTRING, STRING, BETWEEN, BINARY_OPERATORS,
      String.append_assoc]
  · intro g fid fname tbl v h
    have hq := getSqlValue_string g ("%%" ++ v) (truthy_pct_left v)
    simp only [STRING] at hq
    have hn : getSqlValue g JVal.null (.str "string") = .ok "'None'" := rfl
    have hesc : sqlInjectionProof ("%%" ++ v) = "%%" ++ sqlInjectionProof v := by
      rw [sqlInjectionProof_append]; rfl
    simp +decide [generateWherePhrase, getValidatedData, wherePhraseCore,
      jlookup, h, hq, hn, hesc, dtEq, dtIn, pyEqScalar, pyStr, pyLower,
      VALUE_OPERATORS_get, bind, Except.bind, LIKE_OPERATORS, STARTS_WITH,
      ENDS_WITH, HAS_SUBSTRING, STRING, BETWEEN, BINARY_OPERATORS,
      String.append_assoc]
  · intro g fid fname tbl v h
    have hq := getSqlValue_string g ("%%" ++ v ++ "%%") (truthy_pct_both v)
    have hn : getSqlValue g JVal.null (.str "string") = .ok "'None'" := rfl
    have hesc : sqlInjectionProof ("%%" ++ v ++ "%%") =
        "%%" ++ sqlInjectionProof v ++ "%%" := by
      rw [show ("%%" ++ v ++ "%%") = ("%%" ++ v) ++ "%%" from rfl,
        sqlInjectionProof_append, sqlInjectionProof_append]
      rfl
    simp only [STRING, String.append_assoc] at hq hesc
    simp +decide [generateWherePhrase, getValidatedData, wherePhraseCore,
      jlookup, h, hq, hn, hesc, dtEq, dtIn, pyEqScalar, pyStr, pyLower,
      VALUE_OPERATORS_get, bind, Except.bind, LIKE_OPERATORS, STARTS_WITH,
      ENDS_WITH, HAS_SUBSTRING, STRING, BETWEEN, BINARY_OPERATORS,
      String.append_assoc]

/-- C4 (witness for the amended claim): `starts_with` on the `name` field
of the `users` registry with value `a`. -/
theorem C4_corrected_witness :
    klookup gUsers.field_mapping (.int 2) = some ⟨"name", "users", STRING⟩ ∧
    generateWherePhrase gUsers (.obj [("field", .int 2),
      ("operator", .str "starts_with"), ("value", .str "a")]) =
      .ok ("`" ++ "users" ++ "`.`" ++ "name" ++ "`" ++ " " ++ "LIKE" ++ " " ++
            ("'" ++ (sqlInjectionProof "a" ++ "%%") ++ "'")) :=
  ⟨rfl, C4_corrected.1 gUsers (.int 2) "name" "users" "a" rfl⟩

/-- The separator-joined form of a non-empty fragment list is its first
parenthesised fragment followed by the loop's tail. -/
theorem joinFrags_cons_eq (condition : String) :
    ∀ (rs : List String) (r : String),
      joinFrags (" " ++ condition ++ " ") (r :: rs) =
        "(" ++ r ++ ")" ++ condTailJoin condition rs := by
  have hsp : ∀ X : String, (" (" : String) ++ X = " " ++ ("(" ++ X) := by
    intro X
    rw [show (" (" : String) = " " ++ "(" from rfl, String.append_assoc]
  intro rs
  induction rs with
  | nil => intro r; simp [joinFrags, condTailJoin, String.append_empty]
  | cons r2 rs2 ih =>
      intro r
      show "(" ++ r ++ ")" ++ (" " ++ condition ++ " ") ++
          joinFrags (" " ++ condition ++ " ") (r2 :: rs2) = _
      rw [ih r2]
      simp [condTailJoin, String.append_assoc, hsp]

/-- The accumulator loop with a non-empty accumulator appends the tail of
every remaining child fragment and closes the parenthesis. -/
theorem parseCondLoop_acc (g : Gen) (fuel : Nat) (condition : String) :
    ∀ (es : List JVal) (rs : List String) (acc : String),
      childFragments g fuel es = some rs → acc ≠ "" →
      parseCondLoop (condChildStep (condDispatch g fuel)) condition es acc =
        .ok ("(" ++ acc ++ condTailJoin condition rs ++ ")") := by
  intro es
  induction es with
  | nil =>
      intro rs acc h hne
      simp [childFragments] at h
      subst h
      simp [parseCondLoop, condTailJoin, String.append_empty]
  | cons e rest ih =>
      intro rs acc h hne
      cases hstep : condChildStep (condDispatch g fuel) e with
      | error msg => simp [childFragments, hstep] at h
      | ok r =>
          cases hrest : childFragments g fuel rest with
          | none => simp [childFragments, hstep, hrest] at h
          | some rs2 =>
              have hrs : rs = r :: rs2 := by
                simp [childFragments, hstep, hrest] at h
                exact h.symm
              subst hrs
              have hcond : ¬(acc = "" ∧ (condition = AND_CONDITION ∨
                  condition = OR_CONDITION)) := fun hc => hne hc.1
              have hacc2 : acc ++ (" " ++ condition ++ " (" ++ r ++ ")") ≠ "" :=
                append_ne_empty_left _ _ hne
              simp only [parseCondLoop, hstep]
              rw [if_neg hcond, ih rs2 _ hrest hacc2]
              simp [condTailJoin, String.append_assoc]

/-- C5 (confirmed): for every non-empty child list whose children compile
to fragments `rs`, an `and` (resp. `or`) node compiles to the children's
fragments each wrapped in parentheses and joined by ` and ` (resp.
` or `), the whole result parenthesised; `joinFrags` places the joining
operator exactly N-1 times between the N wrapped fragments. -/
theorem C5_confirmed (g : Gen) (fuel : Nat) (condition : String)
    (es : List JVal) (rs : List String)
    (hcond : condition = AND_CONDITION ∨ condition = OR_CONDITION)
    (hne : es ≠ [])
    (hfr : childFragments g fuel es = some rs) :
    condDispatch g (fuel+1) condition (.arr es) =
      .ok ("(" ++ joinFrags (" " ++ condition ++ " ") rs ++ ")") := by
  have hdisp : condDispatch g (fuel+1) condition (.arr es) =
      parseCondLoop (condChildStep (condDispatch g fuel)) condition es "" := by
    rcases hcond with h | h <;> subst h <;> rfl
  rw [hdisp]
  cases es with
  | nil => exact absurd rfl hne
  | cons e rest =>
      cases hstep : condChildStep (condDispatch g fuel) e with
      | error msg => exact absurd hfr (by simp [childFragments, hstep])
      | ok r =>
          cases hrest : childFragments g fuel rest with
          | none => exact absurd hfr (by simp [childFragments, hstep, hrest])
          | some rs2 =>
              have hrs : rs = r :: rs2 := by
                simp [childFragments, hstep, hrest] at hfr
                exact hfr.symm
              subst hrs
              have hne2 : ("(" ++ r ++ ")" : String) ≠ "" :=
                append_ne_empty_left _ _ (append_ne_empty_left _ _ (by decide))
              simp only [parseCondLoop, hstep]
              rw [if_pos ⟨trivial, hcond⟩, String.empty_append,
                parseCondLoop_acc g fuel condition rest rs2 _ hrest hne2,
                joinFrags_cons_eq condition rs2 r]
              simp [String.append_assoc]

/-- C5 (witness): three `equals` leaves under one `and` node. -/
theorem C5_confirmed_witness :
    ((AND_CONDITION = AND_CONDITION ∨ AND_CONDITION = OR_CONDITION) ∧
      esC5 ≠ [] ∧
      childFragments gUsers 31 esC5 =
        some ["`users`.`age` = 1", "`users`.`age` = 2", "`users`.`age` = 3"]) ∧
    condDispatch gUsers 32 AND_CONDITION (.arr esC5) =
      .ok ("(" ++ joinFrags (" " ++ AND_CONDITION ++ " ")
        ["`users`.`age` = 1", "`users`.`age` = 2", "`users`.`age` = 3"] ++ ")") :=
  ⟨⟨Or.inl rfl, List.cons_ne_nil _ _, by decide⟩,
   C5_confirmed gUsers 31 AND_CONDITION esC5 _ (Or.inl rfl)
     (List.cons_ne_nil _ _) (by decide)⟩

/-- A lookup in an updated validated-parameters dict that succeeds either
hits the updated key or was already present. -/
theorem plookup_pdictSet_isSome (k x : String) (v : PValue) :
    ∀ acc : List (String × PValue),
      (plookup (pdictSet acc k v) x).isSome = true →
      (plookup acc x).isSome = true ∨ x = k := by
  intro acc
  induction acc with
  | nil =>
      intro h
      by_cases hx : k = x
      · exact Or.inr hx.symm
      · simp [pdictSet, plookup, hx] at h
  | cons p rest ih =>
      obtain ⟨k', v'⟩ := p
      intro h
      by_cases hk : k' = k
      · subst hk
        by_cases hx : k' = x
        · exact Or.inr hx.symm
        · simp [pdictSet, plookup, hx] at h ⊢
          exact Or.inl h
      · by_cases hx : k' = x
        · simp [plookup, hx]
        · simp [pdictSet, plookup, hk, hx] at h ⊢
          exact ih h

/-- Every key of the supplied-parameter dict has a lookup hit. -/
theorem jlookup_isSome_of_mem_keys (x : String) :
    ∀ l : List (String × JVal), x ∈ l.map Prod.fst →
      (jlookup l x).isSome = true := by
  intro l
  induction l with
  | nil => intro h; simp at h
  | cons p rest ih =>
      intro h
      simp only [List.map_cons, List.mem_cons] at h
      by_cases hp : p.1 = x
      · simp [jlookup, hp]
      · rcases h with h1 | h1
        · exact absurd h1.symm hp
        · simp only [jlookup, hp, if_false]
          exact ih h1

/-- Supplying a parameter name the schema does not declare makes the
parameter fold fail (at that parameter or at an earlier failing one). -/
theorem foldParams_invalid_name (g : Gen) (tps : List (String × JVal))
    (pid : String) (pdata : JVal) :
    ∀ (supplied : List (String × JVal)) (acc : List (String × PValue)),
      (pid, pdata) ∈ supplied → jlookup tps pid = Option.none →
      (supplied.foldlM (fun acc p =>
        processOneParam g (.obj tps) acc p.1 p.2) acc).isOk = false := by
  intro supplied
  induction supplied with
  | nil => intro acc hm hn; cases hm
  | cons q rest ih =>
      intro acc hm hn
      rcases List.mem_cons.mp hm with h | h
      · have hq : processOneParam g (.obj tps) acc q.1 q.2 =
            .error "Invalid parameter name." := by
          rw [← h]
          simp [processOneParam, hn]
        simp [List.foldlM, hq, bind, Except.bind, Except.isOk, Except.toBool]
      · cases hq : processOneParam g (.obj tps) acc q.1 q.2 with
        | error e =>
            simp [List.foldlM, hq, bind, Except.bind, Except.isOk,
              Except.toBool]
        | ok acc1 =>
            simp only [List.foldlM, hq, bind, Except.bind]
            exact ih acc1 h hn

/-- A successful single-parameter step only updates the supplied name. -/
theorem processOneParam_ok (g : Gen) (decl : JVal)
    (acc : List (String × PValue)) (pid : String) (pdata : JVal)
    (acc2 : List (String × PValue))
    (h : processOneParam g decl acc pid pdata = .ok acc2) :
    ∃ v, acc2 = pdictSet acc pid v := by
  cases decl with
  | obj tps =>
      cases hj : jlookup tps pid with
      | none => simp [processOneParam, hj] at h
      | some spec =>
          cases spec with
          | obj skvs =>
              cases hd : jlookup skvs "data_type" with
              | none => simp [processOneParam, hj, hd] at h
              | some pt =>
                  cases hp : processParameter g pt pdata with
                  | error e =>
                      simp [processOneParam, hj, hd, hp, bind,
                        Except.bind] at h
                  | ok v =>
                      simp [processOneParam, hj, hd, hp, bind,
                        Except.bind] at h
                      exact ⟨v, h.symm⟩
          | null => simp [processOneParam, hj] at h
          | bool b => simp [processOneParam, hj] at h
          | int n => simp [processOneParam, hj] at h
          | str s => simp [processOneParam, hj] at h
          | arr xs => simp [processOneParam, hj] at h
  | null => simp [processOneParam] at h
  | bool b => simp [processOneParam] at h
  | int n => simp [processOneParam] at h
  | str s => simp [processOneParam] at h
  | arr xs => simp [processOneParam] at h

/-- Every key of the validated dict a successful fold produces was in the
initial accumulator or among the supplied names. -/
theorem foldParams_keys (g : Gen) (tps : List (String × JVal)) :
    ∀ (supplied : List (String × JVal)) (acc validated : List (String × PValue)),
      supplied.foldlM (fun acc p =>
        processOneParam g (.obj tps) acc p.1 p.2) acc = .ok validated →
      ∀ x, (plookup validated x).isSome = true →
        (plookup acc x).isSome = true ∨ x ∈ supplied.map Prod.fst := by
  intro supplied
  induction supplied with
  | nil =>
      intro acc validated h x hx
      simp [List.foldlM, pure, Except.pure] at h
      subst h
      exact Or.inl hx
  | cons q rest ih =>
      intro acc validated h x hx
      cases hq : processOneParam g (.obj tps) acc q.1 q.2 with
      | error e => simp [List.foldlM, hq, bind, Except.bind] at h
      | ok acc1 =>
          simp only [List.foldlM, hq, bind, Except.bind] at h
          rcases ih acc1 validated h x hx with hl | hr
          · obtain ⟨v, hv⟩ := processOneParam_ok g (.obj tps) acc q.1 q.2 acc1 hq
            subst hv
            rcases plookup_pdictSet_isSome q.1 x v acc hl with h1 | h1
            · exact Or.inl h1
            · exact Or.inr (by simp [h1])
          · exact Or.inr (by simp [hr])

/-- Supplying an undeclared parameter name makes the custom-method node
fail. -/
theorem customMethod_extra (g : Gen) (tid : JVal) (md : MethodData)
    (tps supplied : List (String × JVal)) (pid : String) (pdata : JVal)
    (hlook : klookup g.custom_methods tid = some md)
    (hdecl : md.parameters = .obj tps)
    (hmem : (pid, pdata) ∈ supplied)
    (hnone : jlookup tps pid = Option.none) :
    (parseCustomMethodCondition g (.obj [("template_id", tid),
      ("parameters", .obj supplied)])).isOk = false := by
  have hfold := foldParams_invalid_name g tps pid pdata supplied [] hmem hnone
  simp +decide [parseCustomMethodCondition, jlookup, hlook, hdecl,
    bind, Except.bind]
  cases hr : supplied.foldlM (fun acc p =>
      processOneParam g (.obj tps) acc p.1 p.2) [] with
  | error e => simp [hr, Except.isOk, Except.toBool]
  | ok validated => rw [hr] at hfold; simp [Except.isOk, Except.toBool] at hfold

/-- Omitting a declared parameter makes the custom-method node fail: the
symmetric-difference check cannot find it among the validated names. -/
theorem customMethod_missing (g : Gen) (tid : JVal) (md : MethodData)
    (tps supplied : List (String × JVal)) (d : String) (spec : JVal)
    (hlook : klookup g.custom_methods tid = some md)
    (hdecl : md.parameters = .obj tps)
    (hmem : (d, spec) ∈ tps)
    (hnot : jlookup supplied d = Option.none) :
    (parseCustomMethodCondition g (.obj [("template_id", tid),
      ("parameters", .obj supplied)])).isOk = false := by
  simp +decide [parseCustomMethodCondition, jlookup, hlook, hdecl,
    bind, Except.bind]
  cases hr : supplied.foldlM (fun acc p =>
      processOneParam g (.obj tps) acc p.1 p.2) [] with
  | error e => simp [hr, Except.isOk, Except.toBool]
  | ok validated =>
      have hd : (plookup validated d).isSome = false := by
        by_contra hcon
        simp only [Bool.not_eq_false] at hcon
        rcases foldParams_keys g tps supplied [] validated hr d hcon with h1 | h1
        · simp [plookup] at h1
        · have := jlookup_isSome_of_mem_keys d supplied h1
          rw [hnot] at this
          simp at this
      have hall : tps.all (fun kv => (plookup validated kv.1).isSome) = false := by
        refine List.all_eq_false.mpr ⟨(d, spec), hmem, ?_⟩
        simp [hd]
      have hpc : paramsComplete tps validated = false := by
        simp [paramsComplete, hall]
      simp [hr, hpc, Except.isOk, Except.toBool]

/-- C6 (confirmed): a custom-method (or questionnaire) node fails when a
supplied parameter name is undeclared or a declared parameter is missing;
when the names match, each value is rendered per its declared type and
substituted into the template — `foo({x})` with schema `x:integer` and
`x = "42"` yields `foo(42)`. -/
theorem C6_confirmed :
    (∀ (g : Gen) (tid : JVal) (md : MethodData)
        (tps supplied : List (String × JVal)) (pid : String) (pdata : JVal),
      klookup g.custom_methods tid = some md → md.parameters = .obj tps →
      (pid, pdata) ∈ supplied → jlookup tps pid = Option.none →
      (parseCustomMethodCondition g (.obj [("template_id", tid),
        ("parameters", .obj supplied)])).isOk = false) ∧
    (∀ (g : Gen) (tid : JVal) (md : MethodData)
        (tps supplied : List (String × JVal)) (d : String) (spec : JVal),
      klookup g.custom_methods tid = some md → md.parameters = .obj tps →
      (d, spec) ∈ tps → jlookup supplied d = Option.none →
      (parseCustomMethodCondition g (.obj [("template_id", tid),
        ("parameters", .obj supplied)])).isOk = false) ∧
    parseCustomMethodCondition gFoo dataFoo42 = .ok "foo(42)" :=
  ⟨fun g tid md tps supplied pid pdata h1 h2 h3 h4 =>
    customMethod_extra g tid md tps supplied pid pdata h1 h2 h3 h4,
   fun g tid md tps supplied d spec h1 h2 h3 h4 =>
    customMethod_missing g tid md tps supplied d spec h1 h2 h3 h4,
   by decide⟩

/-- C6 (witness): the extra parameter `y` and the missing parameter `x`
each make the `foo({x})` method fail. -/
theorem C6_confirmed_witness :
    (parseCustomMethodCondition gFoo dataFooExtra).isOk = false ∧
    (parseCustomMethodCondition gFoo dataFooMissing).isOk = false :=
  ⟨C6_confirmed.1 gFoo (.int 7)
      ⟨"foo({x})", .obj [("x", .obj [("data_type", .str "integer")])]⟩
      [("x", .obj [("data_type", .str "integer")])]
      [("x", .obj [("value", .str "42")]), ("y", .obj [("value", .str "1")])]
      "y" (.obj [("value", .str "1")]) rfl rfl
      (List.mem_cons_of_mem _ (List.mem_cons_self _ _)) rfl,
   C6_confirmed.2.1 gFoo (.int 7)
      ⟨"foo({x})", .obj [("x", .obj [("data_type", .str "integer")])]⟩
      [("x", .obj [("data_type", .str "integer")])] [] "x"
      (.obj [("data_type", .str "integer")]) rfl rfl
      (List.mem_cons_self _ _) rfl⟩

end J2S
